import Mathlib

/-!
# secboot: unsealing a TPM-sealed key, and the Microsoft UEFI CA identities

A shallow embedding of `tpm2/unseal.go` (`SealedKeyObject.UnsealFromTPM`) and of
the two identity tables of `internal/efi/known_secureboot_cas.go`.

The TPM and the package-level collaborators that talk to it (`k.load`,
`isObjectPrimaryKeyWithTemplate`, `executePolicySession`) are a record of
state-passing operations over an arbitrary device state `σ`.  Every operation
returns its Go result together with the next device state, so a `Connection σ`
with a start state stands for an arbitrary sequence of device responses.
`UnsealFromTPM` additionally records the operations it issues, in order.

Byte slices are lists of naturals; the nil slice and the empty slice are both
the empty list.
-/

namespace Secboot

/-! ## Go error values -/

/-- An error value handed to `UnsealFromTPM` by the device layer or by one of the
package helpers, as a chain in the sense of `xerrors.Unwrap`.  `plain` is an error
of any dynamic type that `UnsealFromTPM` never inspects; `ResourceUnavailableError`
and `TPMSessionError` are the two go-tpm2 error types it tests for; `keyDataError`,
`dynamicPolicyDataError` and `staticPolicyDataError` are the three error types of the
package, each holding the error it wraps; `wrapError` is what
`xerrors.Errorf("msg: %w", err)` builds.  A leaf carries the text that its `Error()`
method returns. -/
inductive Err where
  | plain (msg : String)
  | ResourceUnavailableError (handle : Nat) (msg : String)
  | TPMSessionError (code : Nat) (command : Nat) (index : Int) (msg : String)
  | keyDataError (err : Err)
  | dynamicPolicyDataError (err : Err)
  | staticPolicyDataError (err : Err)
  | wrapError (msg : String) (err : Err)
  deriving DecidableEq, Repr

/-- The error result of `UnsealFromTPM`: one of the two package sentinels, an
`InvalidKeyDataError` with its message, or an error that is passed on (as it is, or
wrapped by `xerrors.Errorf`) without being classified. -/
inductive UnsealError where
  | ErrTPMLockout
  | ErrTPMProvisioning
  | InvalidKeyDataError (msg : String)
  | unclassified (err : Err)
  deriving DecidableEq, Repr

/-- Modelled from the spec: the `Error()` methods of `keyDataError`,
`dynamicPolicyDataError` and `staticPolicyDataError` are declared outside the given
sources; each prints the text of the error it holds.  A leaf prints the text it
carries, and `xerrors.Errorf("msg: %w", err)` prints `msg`, a colon, a blank and the
text of the wrapped error. -/
def Err.Error : Err → String
  | .plain msg => msg
  | .ResourceUnavailableError _ msg => msg
  | .TPMSessionError _ _ _ msg => msg
  | .keyDataError err => err.Error
  | .dynamicPolicyDataError err => err.Error
  | .staticPolicyDataError err => err.Error
  | .wrapError msg err => msg ++ ": " ++ err.Error

/-- The error followed by everything reachable from it through `Unwrap`, outermost
first: the values that `xerrors.As` visits, in the order it visits them. -/
def Err.chain : Err → List Err
  | .plain msg => [.plain msg]
  | .ResourceUnavailableError h msg => [.ResourceUnavailableError h msg]
  | .TPMSessionError c k i msg => [.TPMSessionError c k i msg]
  | .keyDataError err => .keyDataError err :: err.chain
  | .dynamicPolicyDataError err => .dynamicPolicyDataError err :: err.chain
  | .staticPolicyDataError err => .staticPolicyDataError err :: err.chain
  | .wrapError msg err => .wrapError msg err :: err.chain

/-- Modelled from the spec: `isKeyDataError` is declared outside the given sources;
it reports whether `xerrors.As` finds a `keyDataError` in the chain. -/
def isKeyDataError (err : Option Err) : Bool :=
  match err with
  | none => false
  | some e => e.chain.any fun x => match x with
    | .keyDataError _ => true
    | _ => false

/-- Modelled from the spec: `isDynamicPolicyDataError` is declared outside the given
sources; it reports whether `xerrors.As` finds a `dynamicPolicyDataError`. -/
def isDynamicPolicyDataError (err : Option Err) : Bool :=
  match err with
  | none => false
  | some e => e.chain.any fun x => match x with
    | .dynamicPolicyDataError _ => true
    | _ => false

/-- Modelled from the spec: `isStaticPolicyDataError` is declared outside the given
sources; it reports whether `xerrors.As` finds a `staticPolicyDataError`. -/
def isStaticPolicyDataError (err : Option Err) : Bool :=
  match err with
  | none => false
  | some e => e.chain.any fun x => match x with
    | .staticPolicyDataError _ => true
    | _ => false

/-! ## Constants of go-tpm2 and of the package -/

/-- The `tpm2.AnyHandle` wildcard of go-tpm2. -/
def AnyHandle : Nat := 0xffffffff

/-- The `tpm2.AnyErrorCode` wildcard of go-tpm2. -/
def AnyErrorCode : Nat := 0xff

/-- The `tpm2.AnyCommandCode` wildcard of go-tpm2. -/
def AnyCommandCode : Nat := 0xc0000000

/-- The `tpm2.AnySessionIndex` wildcard of go-tpm2. -/
def AnySessionIndex : Int := -1

/-- The `tpm2.PropertyPermanent` property tag (TPM_PT_PERMANENT). -/
def PropertyPermanent : Nat := 0x200

/-- The `tpm2.AttrInLockout` bit of the permanent attributes (bit 9 of TPMA_PERMANENT). -/
def AttrInLockout : Nat := 0x200

/-- The `tpm2.ErrorPolicyFail` error code (TPM_RC_POLICY_FAIL as a format-one code). -/
def ErrorPolicyFail : Nat := 0x9d

/-- The `tpm2.CommandUnseal` command code (TPM_CC_Unseal). -/
def CommandUnseal : Nat := 0x15e

/-- Modelled from the spec: `tcg.SRKHandle` is declared outside the given sources;
the persistent handle reserved for the storage root key. -/
def SRKHandle : Nat := 0x81000001

/-- Modelled from the spec: `lockNVHandle` is declared outside the given sources;
the handle of the legacy lock NV index. -/
def lockNVHandle : Nat := 0x01801100

/-- The `tpm2.IsResourceUnavailableError` test of go-tpm2: `xerrors.As` finds a
`ResourceUnavailableError`, and the handle asked for is the wildcard or the handle
of the error found. -/
def IsResourceUnavailableError (err : Option Err) (handle : Nat) : Bool :=
  match err with
  | none => false
  | some e =>
    match e.chain.find? fun x => match x with
      | .ResourceUnavailableError _ _ => true
      | _ => false with
    | some (.ResourceUnavailableError h _) => handle == AnyHandle || h == handle
    | _ => false

/-- The `tpm2.IsTPMSessionError` test of go-tpm2: `xerrors.As` finds a
`*TPMSessionError`, and each of code, command and session index is the wildcard or
equal to that of the error found. -/
def IsTPMSessionError (err : Option Err) (code command : Nat) (session : Int) : Bool :=
  match err with
  | none => false
  | some e =>
    match e.chain.find? fun x => match x with
      | .TPMSessionError _ _ _ _ => true
      | _ => false with
    | some (.TPMSessionError c k i _) =>
      (code == AnyErrorCode || c == code) && (command == AnyCommandCode || k == command)
        && (session == AnySessionIndex || i == session)
    | _ => false

/-- The text that the verb `%08x` prints for a handle. -/
def hex08 (n : Nat) : String :=
  let ds := Nat.toDigits 16 n
  String.mk (List.replicate (8 - ds.length) (Char.ofNat 48) ++ ds)

/-! ## Data -/

/-- One `tpm2.TaggedProperty`. -/
structure TaggedProperty where
  Property : Nat
  Value : Nat
  deriving DecidableEq, Repr

/-- A `tpm2.ResourceContext`: a loaded or persistent object. -/
structure ResourceContext where
  handle : Nat
  deriving DecidableEq, Repr

/-- A `tpm2.SessionContext`. -/
structure SessionContext where
  handle : Nat
  deriving DecidableEq, Repr

/-- A `tpm2.HandleContext`, the argument of `FlushContext`: either kind of context. -/
inductive HandleContext where
  | resource (c : ResourceContext)
  | session (c : SessionContext)
  deriving DecidableEq, Repr

/-- What `UnsealFromTPM` reads of a `SealedKeyObject`: `k.data.version()`, the name
algorithm of `k.data.keyPublic()`, and the static and dynamic policy data, which it
only passes on. -/
structure SealedKeyObject where
  version : Nat
  keyPublicNameAlg : Nat
  staticPolicyData : List Nat
  dynamicPolicyData : List Nat
  deriving DecidableEq, Repr

/-- The structure `sealedData` that a version 1 payload decodes to. -/
structure sealedData where
  Key : List Nat
  AuthPrivateKey : List Nat
  deriving DecidableEq, Repr

/-- The device and the helpers that drive it.  Each operation takes the device
state and returns its Go result and the next state.  `load`,
`isObjectPrimaryKeyWithTemplate` and `executePolicySession` are functions of the
package that are declared outside the given sources; they are taken as given. -/
structure Connection (σ : Type) where
  GetCapabilityTPMProperties : Nat → Nat → σ → Except Err (List TaggedProperty) × σ
  load : SealedKeyObject → σ → Except Err ResourceContext × σ
  CreateResourceContextFromTPM : Nat → σ → Except Err ResourceContext × σ
  isObjectPrimaryKeyWithTemplate : ResourceContext → σ → Except Err Bool × σ
  StartAuthSession : Nat → σ → Except Err SessionContext × σ
  executePolicySession : SessionContext → Nat → List Nat → List Nat → σ → Option Err × σ
  Unseal : ResourceContext → SessionContext → σ → Except Err (List Nat) × σ
  FlushContext : HandleContext → σ → Option Err × σ

/-- One operation issued on the connection, with its arguments and whether it
returned a nil error (for the two operations that acquire a handle: the handle). -/
inductive Event where
  | GetCapabilityTPMProperties (property count : Nat) (ok : Bool)
  | load (ok : Option ResourceContext)
  | CreateResourceContextFromTPM (handle : Nat) (ok : Bool)
  | isObjectPrimaryKeyWithTemplate (object : ResourceContext) (ok : Bool)
  | StartAuthSession (nameAlg : Nat) (ok : Option SessionContext)
  | executePolicySession (session : SessionContext) (version : Nat) (ok : Bool)
  | Unseal (keyObject : ResourceContext) (session : SessionContext) (ok : Bool)
  | FlushContext (h : HandleContext)
  deriving DecidableEq, Repr

/-- How a call of `UnsealFromTPM` ends: it returns its three results, or the index
expression `props[0]` fails at run time because the slice is empty. -/
inductive Result where
  | returned (key : List Nat) (authKey : List Nat) (err : Option UnsealError)
  | indexOutOfRange
  deriving DecidableEq, Repr

/-- The end of a call, the operations issued and the device state left behind. -/
structure Outcome (σ : Type) where
  result : Result
  trace : List Event
  final : σ

/-- An error return: `return nil, nil, err`. -/
def fail (err : UnsealError) : Result := .returned [] [] (some err)

/-! ## UnsealFromTPM -/

/-- Lines 120 to 152: the policy assertions, the unseal command and the decoding of
the payload.  `unmarshal` is `mu.UnmarshalFromBytes` at the type `sealedData`: it
returns what it has stored in the structure and its error. -/
def policyAndUnseal {σ : Type} (tpm : Connection σ) (unmarshal : List Nat → sealedData × Option Err)
    (k : SealedKeyObject) (keyObject : ResourceContext) (policySession : SessionContext)
    (s : σ) : Outcome σ :=
  match tpm.executePolicySession policySession k.version k.staticPolicyData k.dynamicPolicyData s with
  | (some err0, s1) =>
    let err := Err.wrapError "cannot complete authorization policy assertions" err0
    let tr := [Event.executePolicySession policySession k.version false]
    if isDynamicPolicyDataError (some err) then
      ⟨fail (.InvalidKeyDataError err.Error), tr, s1⟩
    else if isStaticPolicyDataError (some err) then
      ⟨fail (.InvalidKeyDataError err.Error), tr, s1⟩
    else if IsResourceUnavailableError (some err) lockNVHandle then
      ⟨fail (.InvalidKeyDataError "required legacy lock NV index is not present"), tr, s1⟩
    else
      ⟨fail (.unclassified err), tr, s1⟩
  | (none, s1) =>
    match tpm.Unseal keyObject policySession s1 with
    | (.error err, s2) =>
      let tr := [Event.executePolicySession policySession k.version true,
        Event.Unseal keyObject policySession false]
      if IsTPMSessionError (some err) ErrorPolicyFail CommandUnseal 1 then
        ⟨fail (.InvalidKeyDataError "the authorization policy check failed during unsealing"), tr, s2⟩
      else
        ⟨fail (.unclassified (.wrapError "cannot unseal key" err)), tr, s2⟩
    | (.ok keyData, s2) =>
      let tr := [Event.executePolicySession policySession k.version true,
        Event.Unseal keyObject policySession true]
      if k.version = 0 then
        ⟨.returned keyData [] none, tr, s2⟩
      else
        match unmarshal keyData with
        | (_, some err) => ⟨fail (.InvalidKeyDataError err.Error), tr, s2⟩
        | (sealedData, none) => ⟨.returned sealedData.Key sealedData.AuthPrivateKey none, tr, s2⟩

/-- Lines 113 to 118 and what follows them: the policy session is started and, once
started, `FlushContext(policySession)` is deferred, so it runs when the rest has
returned; its result is dropped. -/
def withPolicySession {σ : Type} (tpm : Connection σ) (unmarshal : List Nat → sealedData × Option Err)
    (k : SealedKeyObject) (keyObject : ResourceContext) (s : σ) : Outcome σ :=
  match tpm.StartAuthSession k.keyPublicNameAlg s with
  | (.error err, s1) =>
    ⟨fail (.unclassified (.wrapError "cannot start policy session" err)),
      [Event.StartAuthSession k.keyPublicNameAlg none], s1⟩
  | (.ok policySession, s1) =>
    let r := policyAndUnseal tpm unmarshal k keyObject policySession s1
    ⟨r.result,
      Event.StartAuthSession k.keyPublicNameAlg (some policySession) :: r.trace
        ++ [Event.FlushContext (.session policySession)],
      (tpm.FlushContext (.session policySession) r.final).2⟩

/-- Lines 83 to 110: the classification of a failed load. -/
def loadFailed {σ : Type} (tpm : Connection σ) (err : Err) (s : σ) : Outcome σ :=
  if isKeyDataError (some err) then
    match tpm.CreateResourceContextFromTPM SRKHandle s with
    | (.error err2, s1) =>
      let tr := [Event.CreateResourceContextFromTPM SRKHandle false]
      if IsResourceUnavailableError (some err2) SRKHandle then
        ⟨fail .ErrTPMProvisioning, tr, s1⟩
      else
        ⟨fail (.unclassified (.wrapError "cannot create context for SRK" err2)), tr, s1⟩
    | (.ok srk, s1) =>
      if IsResourceUnavailableError none SRKHandle then
        ⟨fail .ErrTPMProvisioning, [Event.CreateResourceContextFromTPM SRKHandle true], s1⟩
      else
        match tpm.isObjectPrimaryKeyWithTemplate srk s1 with
        | (.error err2, s2) =>
          ⟨fail (.unclassified (.wrapError
              ("cannot determine if object at 0x" ++ hex08 SRKHandle
                ++ " is a primary key in the storage hierarchy") err2)),
            [Event.CreateResourceContextFromTPM SRKHandle true,
              Event.isObjectPrimaryKeyWithTemplate srk false], s2⟩
        | (.ok ok, s2) =>
          let tr := [Event.CreateResourceContextFromTPM SRKHandle true,
            Event.isObjectPrimaryKeyWithTemplate srk true]
          if !ok then
            ⟨fail .ErrTPMProvisioning, tr, s2⟩
          else
            ⟨fail (.InvalidKeyDataError err.Error), tr, s2⟩
  else if IsResourceUnavailableError (some err) SRKHandle then
    ⟨fail .ErrTPMProvisioning, [], s⟩
  else
    ⟨fail (.unclassified err), [], s⟩

/-- The method `(k *SealedKeyObject) UnsealFromTPM(tpm *Connection)`, run on the
device state `s`.  `tpm.HmacSession()`, `tpm.OwnerHandleContext()` and
`hmacSession.IncludeAttrs` read fields of the connection and issue nothing. -/
def UnsealFromTPM {σ : Type} (tpm : Connection σ) (unmarshal : List Nat → sealedData × Option Err)
    (k : SealedKeyObject) (s : σ) : Outcome σ :=
  match tpm.GetCapabilityTPMProperties PropertyPermanent 1 s with
  | (.error err, s1) =>
    ⟨fail (.unclassified (.wrapError "cannot fetch properties from TPM" err)),
      [Event.GetCapabilityTPMProperties PropertyPermanent 1 false], s1⟩
  | (.ok [], s1) =>
    ⟨.indexOutOfRange, [Event.GetCapabilityTPMProperties PropertyPermanent 1 true], s1⟩
  | (.ok (p :: _), s1) =>
    if p.Value &&& AttrInLockout > 0 then
      ⟨fail .ErrTPMLockout, [Event.GetCapabilityTPMProperties PropertyPermanent 1 true], s1⟩
    else
      match tpm.load k s1 with
      | (.error err, s2) =>
        let r := loadFailed tpm err s2
        ⟨r.result,
          Event.GetCapabilityTPMProperties PropertyPermanent 1 true :: Event.load none :: r.trace,
          r.final⟩
      | (.ok keyObject, s2) =>
        let r := withPolicySession tpm unmarshal k keyObject s2
        ⟨r.result,
          Event.GetCapabilityTPMProperties PropertyPermanent 1 true :: Event.load (some keyObject)
            :: r.trace ++ [Event.FlushContext (.resource keyObject)],
          (tpm.FlushContext (.resource keyObject) r.final).2⟩

/-! ## The known secure boot authorities -/

/-- The `x509.PublicKeyAlgorithm` enumeration of the Go standard library. -/
inductive PublicKeyAlgorithm where
  | UnknownPublicKeyAlgorithm
  | RSA
  | DSA
  | ECDSA
  | Ed25519
  deriving DecidableEq, Repr

/-- The `x509.SignatureAlgorithm` enumeration of the Go standard library. -/
inductive SignatureAlgorithm where
  | UnknownSignatureAlgorithm
  | MD2WithRSA
  | MD5WithRSA
  | SHA1WithRSA
  | SHA256WithRSA
  | SHA384WithRSA
  | SHA512WithRSA
  | DSAWithSHA1
  | DSAWithSHA256
  | ECDSAWithSHA1
  | ECDSAWithSHA256
  | ECDSAWithSHA384
  | ECDSAWithSHA512
  | SHA256WithRSAPSS
  | SHA384WithRSAPSS
  | SHA512WithRSAPSS
  | PureEd25519
  deriving DecidableEq, Repr

/-- The identity of a secure boot authority (`SecureBootAuthorityIdentity`). -/
structure SecureBootAuthorityIdentity where
  Subject : List Nat
  SubjectKeyId : List Nat
  PublicKeyAlgorithm : PublicKeyAlgorithm
  Issuer : List Nat
  AuthorityKeyId : List Nat
  SignatureAlgorithm : SignatureAlgorithm
  deriving DecidableEq, Repr

/-- The 2011 Microsoft UEFI CA. Subject, as the source comments it: CN=Microsoft Corporation UEFI CA 2011,O=Microsoft Corporation,L=Redmond,ST=Washington,C=US -/
def MSUefiCA2011 : SecureBootAuthorityIdentity where
  Subject := [
    0x30, 0x81, 0x81, 0x31, 0x0b, 0x30, 0x09, 0x06, 0x03, 0x55,
    0x04, 0x06, 0x13, 0x02, 0x55, 0x53, 0x31, 0x13, 0x30, 0x11,
    0x06, 0x03, 0x55, 0x04, 0x08, 0x13, 0x0a, 0x57, 0x61, 0x73,
    0x68, 0x69, 0x6e, 0x67, 0x74, 0x6f, 0x6e, 0x31, 0x10, 0x30,
    0x0e, 0x06, 0x03, 0x55, 0x04, 0x07, 0x13, 0x07, 0x52, 0x65,
    0x64, 0x6d, 0x6f, 0x6e, 0x64, 0x31, 0x1e, 0x30, 0x1c, 0x06,
    0x03, 0x55, 0x04, 0x0a, 0x13, 0x15, 0x4d, 0x69, 0x63, 0x72,
    0x6f, 0x73, 0x6f, 0x66, 0x74, 0x20, 0x43, 0x6f, 0x72, 0x70,
    0x6f, 0x72, 0x61, 0x74, 0x69, 0x6f, 0x6e, 0x31, 0x2b, 0x30,
    0x29, 0x06, 0x03, 0x55, 0x04, 0x03, 0x13, 0x22, 0x4d, 0x69,
    0x63, 0x72, 0x6f, 0x73, 0x6f, 0x66, 0x74, 0x20, 0x43, 0x6f,
    0x72, 0x70, 0x6f, 0x72, 0x61, 0x74, 0x69, 0x6f, 0x6e, 0x20,
    0x55, 0x45, 0x46, 0x49, 0x20, 0x43, 0x41, 0x20, 0x32, 0x30,
    0x31, 0x31]
  SubjectKeyId := [
    0x13, 0xad, 0xbf, 0x43, 0x09, 0xbd, 0x82, 0x70, 0x9c, 0x8c,
    0xd5, 0x4f, 0x31, 0x6e, 0xd5, 0x22, 0x98, 0x8a, 0x1b, 0xd4]
  PublicKeyAlgorithm := .RSA
  Issuer := [
    0x30, 0x81, 0x91, 0x31, 0x0b, 0x30, 0x09, 0x06, 0x03, 0x55,
    0x04, 0x06, 0x13, 0x02, 0x55, 0x53, 0x31, 0x13, 0x30, 0x11,
    0x06, 0x03, 0x55, 0x04, 0x08, 0x13, 0x0a, 0x57, 0x61, 0x73,
    0x68, 0x69, 0x6e, 0x67, 0x74, 0x6f, 0x6e, 0x31, 0x10, 0x30,
    0x0e, 0x06, 0x03, 0x55, 0x04, 0x07, 0x13, 0x07, 0x52, 0x65,
    0x64, 0x6d, 0x6f, 0x6e, 0x64, 0x31, 0x1e, 0x30, 0x1c, 0x06,
    0x03, 0x55, 0x04, 0x0a, 0x13, 0x15, 0x4d, 0x69, 0x63, 0x72,
    0x6f, 0x73, 0x6f, 0x66, 0x74, 0x20, 0x43, 0x6f, 0x72, 0x70,
    0x6f, 0x72, 0x61, 0x74, 0x69, 0x6f, 0x6e, 0x31, 0x3b, 0x30,
    0x39, 0x06, 0x03, 0x55, 0x04, 0x03, 0x13, 0x32, 0x4d, 0x69,
    0x63, 0x72, 0x6f, 0x73, 0x6f, 0x66, 0x74, 0x20, 0x43, 0x6f,
    0x72, 0x70, 0x6f, 0x72, 0x61, 0x74, 0x69, 0x6f, 0x6e, 0x20,
    0x54, 0x68, 0x69, 0x72, 0x64, 0x20, 0x50, 0x61, 0x72, 0x74,
    0x79, 0x20, 0x4d, 0x61, 0x72, 0x6b, 0x65, 0x74, 0x70, 0x6c,
    0x61, 0x63, 0x65, 0x20, 0x52, 0x6f, 0x6f, 0x74]
  AuthorityKeyId := [
    0x45, 0x66, 0x52, 0x43, 0xe1, 0x7e, 0x58, 0x11, 0xbf, 0xd6,
    0x4e, 0x9e, 0x23, 0x55, 0x08, 0x3b, 0x3a, 0x22, 0x6a, 0xa8]
  SignatureAlgorithm := .SHA256WithRSA

/-- The 2023 Microsoft UEFI CA. Subject, as the source comments it: CN=Microsoft UEFI CA 2023,O=Microsoft Corporation,C=US -/
def MSUefiCA2023 : SecureBootAuthorityIdentity where
  Subject := [
    0x30, 0x4e, 0x31, 0x0b, 0x30, 0x09, 0x06, 0x03, 0x55, 0x04,
    0x06, 0x13, 0x02, 0x55, 0x53, 0x31, 0x1e, 0x30, 0x1c, 0x06,
    0x03, 0x55, 0x04, 0x0a, 0x13, 0x15, 0x4d, 0x69, 0x63, 0x72,
    0x6f, 0x73, 0x6f, 0x66, 0x74, 0x20, 0x43, 0x6f, 0x72, 0x70,
    0x6f, 0x72, 0x61, 0x74, 0x69, 0x6f, 0x6e, 0x31, 0x1f, 0x30,
    0x1d, 0x06, 0x03, 0x55, 0x04, 0x03, 0x13, 0x16, 0x4d, 0x69,
    0x63, 0x72, 0x6f, 0x73, 0x6f, 0x66, 0x74, 0x20, 0x55, 0x45,
    0x46, 0x49, 0x20, 0x43, 0x41, 0x20, 0x32, 0x30, 0x32, 0x33]
  SubjectKeyId := [
    0x81, 0xaa, 0x6b, 0x32, 0x44, 0xc9, 0x35, 0xbc, 0xe0, 0xd6,
    0x62, 0x8a, 0xf3, 0x98, 0x27, 0x42, 0x1e, 0x32, 0x49, 0x7d]
  PublicKeyAlgorithm := .RSA
  Issuer := [
    0x30, 0x5a, 0x31, 0x0b, 0x30, 0x09, 0x06, 0x03, 0x55, 0x04,
    0x06, 0x13, 0x02, 0x55, 0x53, 0x31, 0x1e, 0x30, 0x1c, 0x06,
    0x03, 0x55, 0x04, 0x0a, 0x13, 0x15, 0x4d, 0x69, 0x63, 0x72,
    0x6f, 0x73, 0x6f, 0x66, 0x74, 0x20, 0x43, 0x6f, 0x72, 0x70,
    0x6f, 0x72, 0x61, 0x74, 0x69, 0x6f, 0x6e, 0x31, 0x2b, 0x30,
    0x29, 0x06, 0x03, 0x55, 0x04, 0x03, 0x13, 0x22, 0x4d, 0x69,
    0x63, 0x72, 0x6f, 0x73, 0x6f, 0x66, 0x74, 0x20, 0x52, 0x53,
    0x41, 0x20, 0x44, 0x65, 0x76, 0x69, 0x63, 0x65, 0x73, 0x20,
    0x52, 0x6f, 0x6f, 0x74, 0x20, 0x43, 0x41, 0x20, 0x32, 0x30,
    0x32, 0x31]
  AuthorityKeyId := [
    0x84, 0x44, 0x86, 0x06, 0x00, 0x98, 0x3f, 0x2c, 0xaa, 0xb3,
    0xc5, 0x89, 0xf3, 0xac, 0x2e, 0xc9, 0xe6, 0x9d, 0x09, 0x03]
  SignatureAlgorithm := .SHA256WithRSA

/-! ### DER, as X.690 defines it (the reference the tables are compared with) -/

/-- The DER length octets of a content of `n` octets (definite, shortest form),
for contents below 65536 octets. -/
def derLength (n : Nat) : List Nat :=
  if n < 128 then [n]
  else if n < 256 then [0x81, n]
  else [0x82, n / 256, n % 256]

/-- One DER element: identifier octet, length octets, content. -/
def derTLV (tag : Nat) (content : List Nat) : List Nat :=
  tag :: (derLength content.length ++ content)

/-- The content octets of an OBJECT IDENTIFIER whose arcs after the second are all
below 128: the first two arcs share one octet. -/
def derOIDContent : List Nat → List Nat
  | a :: b :: rest => (40 * a + b) :: rest
  | _ => []

/-- A PrintableString element: tag 0x13 and the characters. -/
def derPrintableString (s : String) : List Nat :=
  derTLV 0x13 (s.toList.map Char.toNat)

/-- One RelativeDistinguishedName holding a single attribute: a SET (0x31) of one
SEQUENCE (0x30) of the attribute type (OBJECT IDENTIFIER, 0x06) and its value as a
PrintableString. -/
def derRDN (attr : List Nat × String) : List Nat :=
  derTLV 0x31 (derTLV 0x30 (derTLV 0x06 (derOIDContent attr.1) ++ derPrintableString attr.2))

/-- A distinguished name: the SEQUENCE of its RDNs, in the order given. -/
def derName (rdns : List (List Nat × String)) : List Nat :=
  derTLV 0x30 (rdns.map derRDN).flatten

/-- The attribute type id-at-countryName (C), 2.5.4.6. -/
def oidCountryName : List Nat := [2, 5, 4, 6]

/-- The attribute type id-at-stateOrProvinceName (ST), 2.5.4.8. -/
def oidStateOrProvinceName : List Nat := [2, 5, 4, 8]

/-- The attribute type id-at-localityName (L), 2.5.4.7. -/
def oidLocalityName : List Nat := [2, 5, 4, 7]

/-- The attribute type id-at-organizationName (O), 2.5.4.10. -/
def oidOrganizationName : List Nat := [2, 5, 4, 10]

/-- The attribute type id-at-commonName (CN), 2.5.4.3. -/
def oidCommonName : List Nat := [2, 5, 4, 3]

/-- The name in the comment above the 2011 subject, outermost RDN first. -/
def subject2011 : List (List Nat × String) :=
  [(oidCountryName, "US"), (oidStateOrProvinceName, "Washington"), (oidLocalityName, "Redmond"),
    (oidOrganizationName, "Microsoft Corporation"),
    (oidCommonName, "Microsoft Corporation UEFI CA 2011")]

/-- The name in the comment above the 2023 subject, outermost RDN first. -/
def subject2023 : List (List Nat × String) :=
  [(oidCountryName, "US"), (oidOrganizationName, "Microsoft Corporation"),
    (oidCommonName, "Microsoft UEFI CA 2023")]

/-- A byte string is exactly one DER SEQUENCE: every element is an octet, the first
is the tag 0x30, the length octets are in the shortest definite form, and the length
they encode is the number of octets that follow them. -/
def isDerSequence (b : List Nat) : Bool :=
  b.all (fun x => decide (x < 256)) &&
  match b with
  | 0x30 :: l :: rest =>
    if l < 128 then rest.length == l
    else if l == 0x81 then
      match rest with
      | n :: body => decide (128 ≤ n) && body.length == n
      | [] => false
    else if l == 0x82 then
      match rest with
      | hi :: lo :: body => decide (256 ≤ hi * 256 + lo) && body.length == hi * 256 + lo
      | _ => false
    else false
  | _ => false

/-! ## The payload encoding of go-tpm2 (package mu) -/

/-- A byte slice as `mu` marshals it: a 16-bit big-endian size and the bytes.  A
slice of more than 65535 bytes cannot be marshalled. -/
def marshalSized (b : List Nat) : Option (List Nat) :=
  if b.length < 65536 then some (b.length / 256 :: b.length % 256 :: b) else none

/-- The bytes `mu` produces for a `sealedData`: the two sized fields in order. -/
def marshalSealedData (d : sealedData) : Option (List Nat) :=
  match marshalSized d.Key, marshalSized d.AuthPrivateKey with
  | some k, some a => some (k ++ a)
  | _, _ => none

/-- Reads one sized byte slice: the value and the unread rest, or nothing when the
input ends early. -/
def unmarshalSized : List Nat → Option (List Nat × List Nat)
  | hi :: lo :: rest =>
    if hi * 256 + lo ≤ rest.length then some (rest.take (hi * 256 + lo), rest.drop (hi * 256 + lo))
    else none
  | _ => none

/-- The decoder `mu.UnmarshalFromBytes(keyData, &sealedData)`: the fields are read in
order into a zero structure; input that ends early gives an error and leaves what
was read so far; bytes after the second field are left unread.  The error that `mu`
reports depends on where the input ended (its text names the field that could not be
read); it is taken as given, as a function `decodeError` of the input. -/
def UnmarshalFromBytes (decodeError : List Nat → Err) (keyData : List Nat) :
    sealedData × Option Err :=
  match unmarshalSized keyData with
  | none => (⟨[], []⟩, some (decodeError keyData))
  | some (key, rest) =>
    match unmarshalSized rest with
    | none => (⟨key, []⟩, some (decodeError keyData))
    | some (authKey, _) => (⟨key, authKey⟩, none)

/-! ## Reading the trace -/

/-- The sessions acquired: one entry per `StartAuthSession` that returned a session. -/
def sessionsStarted : List Event → List SessionContext
  | [] => []
  | .StartAuthSession _ (some c) :: tr => c :: sessionsStarted tr
  | _ :: tr => sessionsStarted tr

/-- The objects acquired: one entry per load that returned an object. -/
def objectsLoaded : List Event → List ResourceContext
  | [] => []
  | .load (some c) :: tr => c :: objectsLoaded tr
  | _ :: tr => objectsLoaded tr

/-- The sessions flushed: one entry per `FlushContext` on a session. -/
def sessionsFlushed : List Event → List SessionContext
  | [] => []
  | .FlushContext (.session c) :: tr => c :: sessionsFlushed tr
  | _ :: tr => sessionsFlushed tr

/-- The objects flushed: one entry per `FlushContext` on an object. -/
def objectsFlushed : List Event → List ResourceContext
  | [] => []
  | .FlushContext (.resource c) :: tr => c :: objectsFlushed tr
  | _ :: tr => objectsFlushed tr

/-- The event is a `FlushContext`. -/
def Event.isFlush : Event → Bool
  | .FlushContext _ => true
  | _ => false

/-- The event is the unseal command. -/
def Event.isUnseal : Event → Bool
  | .Unseal _ _ _ => true
  | _ => false

/-- The event belongs to a step after the load: session start, policy assertions or
the unseal command. -/
def Event.afterLoad : Event → Bool
  | .StartAuthSession _ _ => true
  | .executePolicySession _ _ _ => true
  | .Unseal _ _ _ => true
  | _ => false

/-- The event belongs to a step after the session start: policy assertions or the
unseal command. -/
def Event.afterSessionStart : Event → Bool
  | .executePolicySession _ _ _ => true
  | .Unseal _ _ _ => true
  | _ => false


/-! ## Reaching a step -/

/-- The permanent properties were read with the lockout bit clear, the sealed
object was loaded as `keyObject`, and the policy session `policySession` was started
with the name algorithm of the sealed object, leaving the device in state `s3`. -/
def ReachesPolicy {σ : Type} (tpm : Connection σ) (k : SealedKeyObject) (s : σ)
    (keyObject : ResourceContext) (policySession : SessionContext) (s3 : σ) : Prop :=
  ∃ p ps s1 s2,
    tpm.GetCapabilityTPMProperties PropertyPermanent 1 s = (.ok (p :: ps), s1) ∧
    p.Value &&& AttrInLockout = 0 ∧
    tpm.load k s1 = (.ok keyObject, s2) ∧
    tpm.StartAuthSession k.keyPublicNameAlg s2 = (.ok policySession, s3)

/-- As `ReachesPolicy`, and `executePolicySession` returned no error, leaving the
device in state `s4`. -/
def ReachesUnseal {σ : Type} (tpm : Connection σ) (k : SealedKeyObject) (s : σ)
    (keyObject : ResourceContext) (policySession : SessionContext) (s4 : σ) : Prop :=
  ∃ s3, ReachesPolicy tpm k s keyObject policySession s3 ∧
    tpm.executePolicySession policySession k.version k.staticPolicyData k.dynamicPolicyData s3
      = (none, s4)

/-! ## A device that answers from a fixed script -/

/-- One answer per operation. -/
structure Script where
  properties : Except Err (List TaggedProperty)
  load : Except Err ResourceContext
  srk : Except Err ResourceContext
  srkMatches : Except Err Bool
  session : Except Err SessionContext
  policy : Option Err
  unsealed : Except Err (List Nat)

/-- The device that gives the answers of the script; its state counts the
operations issued so far. -/
def scripted (r : Script) : Connection Nat where
  GetCapabilityTPMProperties := fun _ _ n => (r.properties, n + 1)
  load := fun _ n => (r.load, n + 1)
  CreateResourceContextFromTPM := fun _ n => (r.srk, n + 1)
  isObjectPrimaryKeyWithTemplate := fun _ n => (r.srkMatches, n + 1)
  StartAuthSession := fun _ n => (r.session, n + 1)
  executePolicySession := fun _ _ _ _ n => (r.policy, n + 1)
  Unseal := fun _ _ n => (r.unsealed, n + 1)
  FlushContext := fun _ n => (none, n + 1)

/-- A script in which every operation succeeds, the lockout bit is clear and the
unseal command returns `payload`. -/
def goodScript (payload : List Nat) : Script where
  properties := .ok [⟨PropertyPermanent, 0x401⟩]
  load := .ok ⟨0x80000000⟩
  srk := .ok ⟨SRKHandle⟩
  srkMatches := .ok true
  session := .ok ⟨0x03000000⟩
  policy := none
  unsealed := .ok payload

/-- An error function for the decoder in the examples.  The text that `mu` prints is
not reproduced: the examples only use that an error is reported, and refer to its
text as `(sampleDecodeError keyData).Error`. -/
def sampleDecodeError (_keyData : List Nat) : Err :=
  .plain "cannot unmarshal the sealed data"

/-- A sealed key object of the given format version. -/
def sampleKey (version : Nat) : SealedKeyObject where
  version := version
  keyPublicNameAlg := 0x000b
  staticPolicyData := [1]
  dynamicPolicyData := [2]

/-! ## A device that keeps its own log -/

/-- The device `tpm` with a log added to its state: every operation appends its own
event, with the arguments it was given and the answer it gave. -/
def logged {σ : Type} (tpm : Connection σ) : Connection (σ × List Event) where
  GetCapabilityTPMProperties := fun property count st =>
    match tpm.GetCapabilityTPMProperties property count st.1 with
    | (.error e, s) =>
      (.error e, (s, st.2 ++ [Event.GetCapabilityTPMProperties property count false]))
    | (.ok v, s) => (.ok v, (s, st.2 ++ [Event.GetCapabilityTPMProperties property count true]))
  load := fun k st =>
    match tpm.load k st.1 with
    | (.error e, s) => (.error e, (s, st.2 ++ [Event.load none]))
    | (.ok c, s) => (.ok c, (s, st.2 ++ [Event.load (some c)]))
  CreateResourceContextFromTPM := fun handle st =>
    match tpm.CreateResourceContextFromTPM handle st.1 with
    | (.error e, s) => (.error e, (s, st.2 ++ [Event.CreateResourceContextFromTPM handle false]))
    | (.ok c, s) => (.ok c, (s, st.2 ++ [Event.CreateResourceContextFromTPM handle true]))
  isObjectPrimaryKeyWithTemplate := fun object st =>
    match tpm.isObjectPrimaryKeyWithTemplate object st.1 with
    | (.error e, s) =>
      (.error e, (s, st.2 ++ [Event.isObjectPrimaryKeyWithTemplate object false]))
    | (.ok b, s) => (.ok b, (s, st.2 ++ [Event.isObjectPrimaryKeyWithTemplate object true]))
  StartAuthSession := fun nameAlg st =>
    match tpm.StartAuthSession nameAlg st.1 with
    | (.error e, s) => (.error e, (s, st.2 ++ [Event.StartAuthSession nameAlg none]))
    | (.ok c, s) => (.ok c, (s, st.2 ++ [Event.StartAuthSession nameAlg (some c)]))
  executePolicySession := fun session version staticData dynamicData st =>
    match tpm.executePolicySession session version staticData dynamicData st.1 with
    | (some e, s) => (some e, (s, st.2 ++ [Event.executePolicySession session version false]))
    | (none, s) => (none, (s, st.2 ++ [Event.executePolicySession session version true]))
  Unseal := fun keyObject session st =>
    match tpm.Unseal keyObject session st.1 with
    | (.error e, s) => (.error e, (s, st.2 ++ [Event.Unseal keyObject session false]))
    | (.ok b, s) => (.ok b, (s, st.2 ++ [Event.Unseal keyObject session true]))
  FlushContext := fun h st =>
    ((tpm.FlushContext h st.1).1, ((tpm.FlushContext h st.1).2, st.2 ++ [Event.FlushContext h]))

/-! ## Theorems -/

theorem isDynamicPolicyDataError_wrapError (msg : String) (e : Err) :
    isDynamicPolicyDataError (some (.wrapError msg e)) = isDynamicPolicyDataError (some e) := by
  simp [isDynamicPolicyDataError, Err.chain]

theorem isStaticPolicyDataError_wrapError (msg : String) (e : Err) :
    isStaticPolicyDataError (some (.wrapError msg e)) = isStaticPolicyDataError (some e) := by
  simp [isStaticPolicyDataError, Err.chain]

theorem IsResourceUnavailableError_wrapError (msg : String) (e : Err) (h : Nat) :
    IsResourceUnavailableError (some (.wrapError msg e)) h
      = IsResourceUnavailableError (some e) h := by
  simp [IsResourceUnavailableError, Err.chain]

theorem Error_wrapError (msg : String) (e : Err) :
    (Err.wrapError msg e).Error = msg ++ ": " ++ e.Error := by
  simp [Err.Error]

/-- Once the object is loaded and the session started, the call is the policy and
unseal part, with the two deferred flushes run after it: session first. -/
theorem UnsealFromTPM_of_ReachesPolicy {σ : Type} (tpm : Connection σ)
    (unmarshal : List Nat → sealedData × Option Err) (k : SealedKeyObject) (s s3 : σ)
    (keyObject : ResourceContext) (policySession : SessionContext)
    (h : ReachesPolicy tpm k s keyObject policySession s3) :
    (UnsealFromTPM tpm unmarshal k s).result
        = (policyAndUnseal tpm unmarshal k keyObject policySession s3).result ∧
      (UnsealFromTPM tpm unmarshal k s).trace
        = Event.GetCapabilityTPMProperties PropertyPermanent 1 true
          :: Event.load (some keyObject)
          :: Event.StartAuthSession k.keyPublicNameAlg (some policySession)
          :: (policyAndUnseal tpm unmarshal k keyObject policySession s3).trace
          ++ [Event.FlushContext (.session policySession),
              Event.FlushContext (.resource keyObject)] := by
  obtain ⟨p, ps, s1, s2, hq, hl, hload, hsess⟩ := h
  simp [UnsealFromTPM, withPolicySession, hq, hl, hload, hsess]

/-- C1: when the permanent-properties query succeeds and the first property has
the in-lockout bit set, `UnsealFromTPM` returns `ErrTPMLockout` with nil key and nil
auth key, and the properties query is the only operation it issues: the device is
left in the state the query left it in. -/
theorem UnsealFromTPM_lockout {σ : Type} (tpm : Connection σ)
    (unmarshal : List Nat → sealedData × Option Err) (k : SealedKeyObject) (s s1 : σ)
    (p : TaggedProperty) (ps : List TaggedProperty)
    (hq : tpm.GetCapabilityTPMProperties PropertyPermanent 1 s = (.ok (p :: ps), s1))
    (hl : p.Value &&& AttrInLockout > 0) :
    (UnsealFromTPM tpm unmarshal k s).result = .returned [] [] (some .ErrTPMLockout) ∧
      (UnsealFromTPM tpm unmarshal k s).trace
        = [Event.GetCapabilityTPMProperties PropertyPermanent 1 true] ∧
      (UnsealFromTPM tpm unmarshal k s).final = s1 := by
  simp [UnsealFromTPM, hq, hl, fail]

theorem UnsealFromTPM_lockout_witness :
    (UnsealFromTPM (scripted { goodScript [7] with properties := .ok [⟨PropertyPermanent, 0x201⟩] })
        (UnmarshalFromBytes sampleDecodeError) (sampleKey 1) 0).result
        = .returned [] [] (some .ErrTPMLockout) ∧
      (UnsealFromTPM (scripted { goodScript [7] with properties := .ok [⟨PropertyPermanent, 0x201⟩] })
        (UnmarshalFromBytes sampleDecodeError) (sampleKey 1) 0).trace
        = [Event.GetCapabilityTPMProperties PropertyPermanent 1 true] ∧
      (UnsealFromTPM (scripted { goodScript [7] with properties := .ok [⟨PropertyPermanent, 0x201⟩] })
        (UnmarshalFromBytes sampleDecodeError) (sampleKey 1) 0).final = 1 :=
  UnsealFromTPM_lockout _ _ _ 0 1 ⟨PropertyPermanent, 0x201⟩ [] rfl (by decide)

theorem unmarshalSized_marshalSized (b m rest : List Nat) (h : marshalSized b = some m) :
    unmarshalSized (m ++ rest) = some (b, rest) := by
  unfold marshalSized at h
  split at h
  · cases h
    have hlen : b.length / 256 * 256 + b.length % 256 = b.length := Nat.div_add_mod' _ _
    simp [unmarshalSized, hlen]
  · cases h

/-- The decoder reads back what the encoder wrote. -/
theorem UnmarshalFromBytes_marshalSealedData (decodeError : List Nat → Err) (d : sealedData)
    (b : List Nat) (h : marshalSealedData d = some b) :
    UnmarshalFromBytes decodeError b = (d, none) := by
  unfold marshalSealedData at h
  split at h
  · next mk ma hk ha =>
    cases h
    have h1 := unmarshalSized_marshalSized d.Key mk ma hk
    have h2 := unmarshalSized_marshalSized d.AuthPrivateKey ma [] ha
    simp only [List.append_nil] at h2
    simp [UnmarshalFromBytes, h1, h2]
  · cases h

/-- C3: with the lockout check, the load, the session start and the policy
assertions all successful and the unseal command returning the bytes `B`:
for format version 0 the call returns `B` itself as the key, a nil auth key and no
error, whatever the decoder would make of `B`; for a format version of at least 1,
if `B` is the marshalled structure with key `K` and auth key `A`, the call returns
exactly `K` and `A` and no error. -/
theorem UnsealFromTPM_version_round_trip {σ : Type} (tpm : Connection σ) (k : SealedKeyObject)
    (s s4 s5 : σ) (keyObject : ResourceContext) (policySession : SessionContext) (B : List Nat)
    (h : ReachesUnseal tpm k s keyObject policySession s4)
    (hu : tpm.Unseal keyObject policySession s4 = (.ok B, s5)) :
    (k.version = 0 → ∀ unmarshal : List Nat → sealedData × Option Err,
        (UnsealFromTPM tpm unmarshal k s).result = .returned B [] none) ∧
      (1 ≤ k.version → ∀ (K A : List Nat) (decodeError : List Nat → Err),
        marshalSealedData ⟨K, A⟩ = some B →
        (UnsealFromTPM tpm (UnmarshalFromBytes decodeError) k s).result
          = .returned K A none) := by
  obtain ⟨s3, hr, hp⟩ := h
  constructor
  · intro hv unmarshal
    rw [(UnsealFromTPM_of_ReachesPolicy tpm unmarshal k s s3 keyObject policySession hr).1]
    simp only [policyAndUnseal, hp, hu]
    simp [hv]
  · intro hv K A decodeError hm
    rw [(UnsealFromTPM_of_ReachesPolicy tpm _ k s s3 keyObject policySession hr).1]
    have hv0 : k.version ≠ 0 := by omega
    simp [policyAndUnseal, hp, hu, hv0, UnmarshalFromBytes_marshalSealedData decodeError ⟨K, A⟩ B hm]

theorem UnsealFromTPM_version_round_trip_witness :
    (∀ unmarshal : List Nat → sealedData × Option Err,
        (UnsealFromTPM (scripted (goodScript [75])) unmarshal (sampleKey 0) 0).result
          = .returned [75] [] none) ∧
      (UnsealFromTPM (scripted (goodScript [0, 1, 75, 0, 2, 65, 66]))
          (UnmarshalFromBytes sampleDecodeError) (sampleKey 1) 0).result
        = .returned [75] [65, 66] none :=
  ⟨(UnsealFromTPM_version_round_trip (scripted (goodScript [75])) (sampleKey 0) 0 4 5
        ⟨0x80000000⟩ ⟨0x03000000⟩ [75]
        ⟨3, ⟨_, _, 1, 2, rfl, by decide, rfl, rfl⟩, rfl⟩ rfl).1 rfl,
    (UnsealFromTPM_version_round_trip (scripted (goodScript [0, 1, 75, 0, 2, 65, 66]))
        (sampleKey 1) 0 4 5 ⟨0x80000000⟩ ⟨0x03000000⟩ [0, 1, 75, 0, 2, 65, 66]
        ⟨3, ⟨_, _, 1, 2, rfl, by decide, rfl, rfl⟩, rfl⟩ rfl).2 (by decide) [75] [65, 66]
        sampleDecodeError (by decide)⟩

/-- C5: with the lockout check, the load and the session start successful, when
`executePolicySession` fails with a dynamic-policy-data error or a
static-policy-data error, `UnsealFromTPM` returns nil keys and an
`InvalidKeyDataError` whose reason is "cannot complete authorization policy
assertions: " followed by the text of the failing assertion; the only operations
after the failed assertions are the two flushes, so the unseal command is not
issued. -/
theorem UnsealFromTPM_policy_data_error {σ : Type} (tpm : Connection σ)
    (unmarshal : List Nat → sealedData × Option Err) (k : SealedKeyObject) (s s3 s4 : σ)
    (keyObject : ResourceContext) (policySession : SessionContext) (err : Err)
    (h : ReachesPolicy tpm k s keyObject policySession s3)
    (hp : tpm.executePolicySession policySession k.version k.staticPolicyData
      k.dynamicPolicyData s3 = (some err, s4))
    (hk : isDynamicPolicyDataError (some err) = true ∨ isStaticPolicyDataError (some err) = true) :
    (UnsealFromTPM tpm unmarshal k s).result
        = .returned [] [] (some (.InvalidKeyDataError
            ("cannot complete authorization policy assertions: " ++ err.Error))) ∧
      (UnsealFromTPM tpm unmarshal k s).trace
        = [Event.GetCapabilityTPMProperties PropertyPermanent 1 true,
            Event.load (some keyObject),
            Event.StartAuthSession k.keyPublicNameAlg (some policySession),
            Event.executePolicySession policySession k.version false,
            Event.FlushContext (.session policySession),
            Event.FlushContext (.resource keyObject)] ∧
      ∀ e ∈ (UnsealFromTPM tpm unmarshal k s).trace, e.isUnseal = false := by
  have hu := UnsealFromTPM_of_ReachesPolicy tpm unmarshal k s s3 keyObject policySession h
  have hres : (policyAndUnseal tpm unmarshal k keyObject policySession s3).result
        = .returned [] [] (some (.InvalidKeyDataError
            ("cannot complete authorization policy assertions: " ++ err.Error))) ∧
      (policyAndUnseal tpm unmarshal k keyObject policySession s3).trace
        = [Event.executePolicySession policySession k.version false] := by
    rcases hk with hk | hk
    · simp [policyAndUnseal, hp, isDynamicPolicyDataError_wrapError, hk, fail, Err.Error]
    · by_cases hd : isDynamicPolicyDataError (some err) = true
      · simp [policyAndUnseal, hp, isDynamicPolicyDataError_wrapError, hd, fail, Err.Error]
      · simp [policyAndUnseal, hp, isDynamicPolicyDataError_wrapError,
          isStaticPolicyDataError_wrapError, hd, hk, fail, Err.Error]
  rw [hu.1, hu.2, hres.1, hres.2]
  simp [Event.isUnseal]

theorem UnsealFromTPM_policy_data_error_witness :
    (UnsealFromTPM (scripted { goodScript [7] with
          policy := some (.dynamicPolicyDataError (.plain "the PCR policy has been revoked")) })
        (UnmarshalFromBytes sampleDecodeError) (sampleKey 1) 0).result
      = .returned [] [] (some (.InvalidKeyDataError
          "cannot complete authorization policy assertions: the PCR policy has been revoked")) :=
  (UnsealFromTPM_policy_data_error
    (scripted { goodScript [7] with
      policy := some (.dynamicPolicyDataError (.plain "the PCR policy has been revoked")) })
    _ (sampleKey 1) 0 3 4 ⟨0x80000000⟩ ⟨0x03000000⟩
    (.dynamicPolicyDataError (.plain "the PCR policy has been revoked"))
    ⟨_, _, 1, 2, rfl, by decide, rfl, rfl⟩ rfl (Or.inl (by decide))).1

/-- C6, as the code has it: with the lockout check, the load and the session start
successful, when `executePolicySession` fails with an error that is neither a
dynamic- nor a static-policy-data error and is a resource-unavailable error for the
lock NV index, `UnsealFromTPM` returns nil keys and an `InvalidKeyDataError` whose
reason is the fixed text "required legacy lock NV index is not present", whatever
the device error was, and the unseal command is not issued. -/
theorem UnsealFromTPM_lock_index_missing {σ : Type} (tpm : Connection σ)
    (unmarshal : List Nat → sealedData × Option Err) (k : SealedKeyObject) (s s3 s4 : σ)
    (keyObject : ResourceContext) (policySession : SessionContext) (err : Err)
    (h : ReachesPolicy tpm k s keyObject policySession s3)
    (hp : tpm.executePolicySession policySession k.version k.staticPolicyData
      k.dynamicPolicyData s3 = (some err, s4))
    (hd : isDynamicPolicyDataError (some err) = false)
    (hs : isStaticPolicyDataError (some err) = false)
    (hr : IsResourceUnavailableError (some err) lockNVHandle = true) :
    (UnsealFromTPM tpm unmarshal k s).result
        = .returned [] [] (some (.InvalidKeyDataError
            "required legacy lock NV index is not present")) ∧
      (UnsealFromTPM tpm unmarshal k s).trace
        = [Event.GetCapabilityTPMProperties PropertyPermanent 1 true,
            Event.load (some keyObject),
            Event.StartAuthSession k.keyPublicNameAlg (some policySession),
            Event.executePolicySession policySession k.version false,
            Event.FlushContext (.session policySession),
            Event.FlushContext (.resource keyObject)] := by
  have hu := UnsealFromTPM_of_ReachesPolicy tpm unmarshal k s s3 keyObject policySession h
  rw [hu.1, hu.2]
  simp [policyAndUnseal, hp, isDynamicPolicyDataError_wrapError,
    isStaticPolicyDataError_wrapError, IsResourceUnavailableError_wrapError, hd, hs, hr, fail]

theorem UnsealFromTPM_lock_index_missing_witness :
    (UnsealFromTPM (scripted { goodScript [7] with
          policy := some (.ResourceUnavailableError lockNVHandle "no such index") })
        (UnmarshalFromBytes sampleDecodeError) (sampleKey 1) 0).result
      = .returned [] [] (some (.InvalidKeyDataError
          "required legacy lock NV index is not present")) :=
  (UnsealFromTPM_lock_index_missing
    (scripted { goodScript [7] with
      policy := some (.ResourceUnavailableError lockNVHandle "no such index") })
    _ (sampleKey 1) 0 3 4 ⟨0x80000000⟩ ⟨0x03000000⟩
    (.ResourceUnavailableError lockNVHandle "no such index")
    ⟨_, _, 1, 2, rfl, by decide, rfl, rfl⟩ rfl (by decide) (by decide) (by decide)).1

/-- C6 as stated fails: on a device where the policy assertions fail with a
resource-unavailable error for the lock NV index (and no policy-data error), the
reason returned is not "required revocation index missing". -/
theorem UnsealFromTPM_lock_index_missing_reason_differs :
    ReachesPolicy (scripted { goodScript [7] with
          policy := some (.ResourceUnavailableError lockNVHandle "no such index") })
        (sampleKey 1) 0 ⟨0x80000000⟩ ⟨0x03000000⟩ 3 ∧
      IsResourceUnavailableError (some (.ResourceUnavailableError lockNVHandle "no such index"))
        lockNVHandle = true ∧
      isDynamicPolicyDataError (some (.ResourceUnavailableError lockNVHandle "no such index"))
        = false ∧
      isStaticPolicyDataError (some (.ResourceUnavailableError lockNVHandle "no such index"))
        = false ∧
      (UnsealFromTPM (scripted { goodScript [7] with
          policy := some (.ResourceUnavailableError lockNVHandle "no such index") })
        (UnmarshalFromBytes sampleDecodeError) (sampleKey 1) 0).result
      ≠ .returned [] [] (some (.InvalidKeyDataError "required revocation index missing")) :=
  ⟨⟨_, _, 1, 2, rfl, by decide, rfl, rfl⟩, by decide, by decide, by decide, by decide⟩

/-- C7: with every earlier step successful, when the unseal command fails:
if the failure is a TPM session error with code policy-fail, command unseal and
session index 1, `UnsealFromTPM` returns nil keys and an `InvalidKeyDataError` with
the fixed reason "the authorization policy check failed during unsealing", which is
not `ErrTPMProvisioning`; every other failure is returned unclassified, as the
device error wrapped under "cannot unseal key". -/
theorem UnsealFromTPM_unseal_failure {σ : Type} (tpm : Connection σ)
    (unmarshal : List Nat → sealedData × Option Err) (k : SealedKeyObject) (s s4 s5 : σ)
    (keyObject : ResourceContext) (policySession : SessionContext) (err : Err)
    (h : ReachesUnseal tpm k s keyObject policySession s4)
    (hu : tpm.Unseal keyObject policySession s4 = (.error err, s5)) :
    (IsTPMSessionError (some err) ErrorPolicyFail CommandUnseal 1 = true →
        (UnsealFromTPM tpm unmarshal k s).result
          = .returned [] [] (some (.InvalidKeyDataError
              "the authorization policy check failed during unsealing")) ∧
        (UnsealFromTPM tpm unmarshal k s).result
          ≠ .returned [] [] (some .ErrTPMProvisioning)) ∧
      (IsTPMSessionError (some err) ErrorPolicyFail CommandUnseal 1 = false →
        (UnsealFromTPM tpm unmarshal k s).result
          = .returned [] [] (some (.unclassified (.wrapError "cannot unseal key" err)))) := by
  obtain ⟨s3, hr, hp⟩ := h
  rw [(UnsealFromTPM_of_ReachesPolicy tpm unmarshal k s s3 keyObject policySession hr).1]
  constructor
  · intro hc
    simp [policyAndUnseal, hp, hu, hc, fail]
  · intro hc
    simp [policyAndUnseal, hp, hu, hc, fail]

theorem UnsealFromTPM_unseal_failure_witness :
    (UnsealFromTPM (scripted { goodScript [7] with
          unsealed := .error (.TPMSessionError ErrorPolicyFail CommandUnseal 1 "policy fail") })
        (UnmarshalFromBytes sampleDecodeError) (sampleKey 1) 0).result
        = .returned [] [] (some (.InvalidKeyDataError
            "the authorization policy check failed during unsealing")) ∧
      (UnsealFromTPM (scripted { goodScript [7] with unsealed := .error (.plain "timeout") })
        (UnmarshalFromBytes sampleDecodeError) (sampleKey 1) 0).result
        = .returned [] [] (some (.unclassified (.wrapError "cannot unseal key" (.plain "timeout")))) :=
  ⟨((UnsealFromTPM_unseal_failure
        (scripted { goodScript [7] with
          unsealed := .error (.TPMSessionError ErrorPolicyFail CommandUnseal 1 "policy fail") })
        _ (sampleKey 1) 0 4 5 ⟨0x80000000⟩ ⟨0x03000000⟩
        (.TPMSessionError ErrorPolicyFail CommandUnseal 1 "policy fail")
        ⟨3, ⟨_, _, 1, 2, rfl, by decide, rfl, rfl⟩, rfl⟩ rfl).1 (by decide)).1,
    (UnsealFromTPM_unseal_failure
        (scripted { goodScript [7] with unsealed := .error (.plain "timeout") })
        _ (sampleKey 1) 0 4 5 ⟨0x80000000⟩ ⟨0x03000000⟩ (.plain "timeout")
        ⟨3, ⟨_, _, 1, 2, rfl, by decide, rfl, rfl⟩, rfl⟩ rfl).2 (by decide)⟩

/-- What a failed load leads to: always an error return, and only probes of the
storage root key are issued. -/
theorem loadFailed_cases {σ : Type} (tpm : Connection σ) (err : Err) (s : σ) :
    (∃ e, (loadFailed tpm err s).result = fail e) ∧
      ((loadFailed tpm err s).trace = [] ∨
        (∃ b, (loadFailed tpm err s).trace = [Event.CreateResourceContextFromTPM SRKHandle b]) ∨
        (∃ srk b, (loadFailed tpm err s).trace
          = [Event.CreateResourceContextFromTPM SRKHandle true,
              Event.isObjectPrimaryKeyWithTemplate srk b])) := by
  unfold loadFailed
  by_cases hk : isKeyDataError (some err) = true
  · rcases hc : tpm.CreateResourceContextFromTPM SRKHandle s with ⟨err2 | srk, s1⟩
    · by_cases hr : IsResourceUnavailableError (some err2) SRKHandle = true <;>
        simp [hk, hr]
    · rcases ho : tpm.isObjectPrimaryKeyWithTemplate srk s1 with ⟨err2 | ok, s2⟩
      · simp [hk, ho, IsResourceUnavailableError]
      · cases ok <;> simp [hk, ho, IsResourceUnavailableError]
  · by_cases hr : IsResourceUnavailableError (some err) SRKHandle = true <;>
      simp [hk, hr]

/-- The result of a call whose load failed. -/
theorem UnsealFromTPM_of_load_error {σ : Type} (tpm : Connection σ)
    (unmarshal : List Nat → sealedData × Option Err) (k : SealedKeyObject) (s s1 s2 : σ)
    (p : TaggedProperty) (ps : List TaggedProperty) (err : Err)
    (hq : tpm.GetCapabilityTPMProperties PropertyPermanent 1 s = (.ok (p :: ps), s1))
    (hl : p.Value &&& AttrInLockout = 0)
    (hload : tpm.load k s1 = (.error err, s2)) :
    (UnsealFromTPM tpm unmarshal k s).result = (loadFailed tpm err s2).result ∧
      (UnsealFromTPM tpm unmarshal k s).trace
        = Event.GetCapabilityTPMProperties PropertyPermanent 1 true :: Event.load none
          :: (loadFailed tpm err s2).trace := by
  simp [UnsealFromTPM, hq, hl, hload]

/-- C2, as the code has it: with the lockout bit clear and the load failed with
`err`.  If `err` is a key-data error the storage root key is probed: a handle
reported absent gives `ErrTPMProvisioning`; an object present that does not match
the template gives `ErrTPMProvisioning`; an object present that matches gives an
`InvalidKeyDataError` with the text of `err`.  If `err` is not a key-data error
nothing is probed: a resource-unavailable error for the storage root key handle
gives `ErrTPMProvisioning`, and any other error is returned as it is. -/
theorem UnsealFromTPM_load_failure {σ : Type} (tpm : Connection σ)
    (unmarshal : List Nat → sealedData × Option Err) (k : SealedKeyObject) (s s1 s2 : σ)
    (p : TaggedProperty) (ps : List TaggedProperty) (err : Err)
    (hq : tpm.GetCapabilityTPMProperties PropertyPermanent 1 s = (.ok (p :: ps), s1))
    (hl : p.Value &&& AttrInLockout = 0)
    (hload : tpm.load k s1 = (.error err, s2)) :
    (isKeyDataError (some err) = true →
        (∀ err2 s3, tpm.CreateResourceContextFromTPM SRKHandle s2 = (.error err2, s3) →
          IsResourceUnavailableError (some err2) SRKHandle = true →
          (UnsealFromTPM tpm unmarshal k s).result = .returned [] [] (some .ErrTPMProvisioning)) ∧
        (∀ srk s3 s4, tpm.CreateResourceContextFromTPM SRKHandle s2 = (.ok srk, s3) →
          tpm.isObjectPrimaryKeyWithTemplate srk s3 = (.ok false, s4) →
          (UnsealFromTPM tpm unmarshal k s).result = .returned [] [] (some .ErrTPMProvisioning)) ∧
        (∀ srk s3 s4, tpm.CreateResourceContextFromTPM SRKHandle s2 = (.ok srk, s3) →
          tpm.isObjectPrimaryKeyWithTemplate srk s3 = (.ok true, s4) →
          (UnsealFromTPM tpm unmarshal k s).result
            = .returned [] [] (some (.InvalidKeyDataError err.Error)))) ∧
      (isKeyDataError (some err) = false →
        (IsResourceUnavailableError (some err) SRKHandle = true →
          (UnsealFromTPM tpm unmarshal k s).result = .returned [] [] (some .ErrTPMProvisioning) ∧
          (UnsealFromTPM tpm unmarshal k s).trace
            = [Event.GetCapabilityTPMProperties PropertyPermanent 1 true, Event.load none]) ∧
        (IsResourceUnavailableError (some err) SRKHandle = false →
          (UnsealFromTPM tpm unmarshal k s).result = .returned [] [] (some (.unclassified err)) ∧
          (UnsealFromTPM tpm unmarshal k s).trace
            = [Event.GetCapabilityTPMProperties PropertyPermanent 1 true, Event.load none])) := by
  have hu := UnsealFromTPM_of_load_error tpm unmarshal k s s1 s2 p ps err hq hl hload
  rw [hu.1, hu.2]
  refine ⟨fun hk => ⟨?_, ?_, ?_⟩, fun hk => ⟨?_, ?_⟩⟩
  · intro err2 s3 hc hr
    simp [loadFailed, hk, hc, hr, fail]
  · intro srk s3 s4 hc ho
    simp [loadFailed, hk, hc, ho, fail, IsResourceUnavailableError]
  · intro srk s3 s4 hc ho
    simp [loadFailed, hk, hc, ho, fail, IsResourceUnavailableError]
  · intro hr
    simp [loadFailed, hk, hr, fail]
  · intro hr
    simp [loadFailed, hk, hr, fail]

theorem UnsealFromTPM_load_failure_witness :
    (UnsealFromTPM (scripted { goodScript [7] with
          load := .error (.keyDataError (.plain "cannot load sealed key object")) })
        (UnmarshalFromBytes sampleDecodeError) (sampleKey 1) 0).result
        = .returned [] [] (some (.InvalidKeyDataError "cannot load sealed key object")) ∧
      (UnsealFromTPM (scripted { goodScript [7] with
          load := .error (.ResourceUnavailableError SRKHandle "no object at the handle") })
        (UnmarshalFromBytes sampleDecodeError) (sampleKey 1) 0).result
        = .returned [] [] (some .ErrTPMProvisioning) :=
  ⟨((UnsealFromTPM_load_failure
        (scripted { goodScript [7] with
          load := .error (.keyDataError (.plain "cannot load sealed key object")) })
        _ (sampleKey 1) 0 1 2 ⟨PropertyPermanent, 0x401⟩ []
        (.keyDataError (.plain "cannot load sealed key object"))
        rfl (by decide) rfl).1 (by decide)).2.2 ⟨SRKHandle⟩ 3 4 rfl rfl,
    (((UnsealFromTPM_load_failure
        (scripted { goodScript [7] with
          load := .error (.ResourceUnavailableError SRKHandle "no object at the handle") })
        _ (sampleKey 1) 0 1 2 ⟨PropertyPermanent, 0x401⟩ []
        (.ResourceUnavailableError SRKHandle "no object at the handle")
        rfl (by decide) rfl).2 (by decide)).1 (by decide)).1⟩

/-- C2 as stated fails: here the lockout bit is clear and the load fails with an
error that is neither a key-data error nor a resource-unavailable error.  On the
first device the storage root key is present and matches the template, and the
result is the load error itself, not an `InvalidKeyDataError`; on the second the
handle is absent, and the result is again the load error, not `ErrTPMProvisioning`. -/
theorem UnsealFromTPM_load_failure_unclassified :
    ((scripted { goodScript [7] with load := .error (.plain "transport failure") }).load
        (sampleKey 1) 1 = (.error (.plain "transport failure"), 2) ∧
      (scripted { goodScript [7] with load := .error (.plain "transport failure") }).CreateResourceContextFromTPM
        SRKHandle 2 = (.ok ⟨SRKHandle⟩, 3) ∧
      (scripted { goodScript [7] with load := .error (.plain "transport failure") }).isObjectPrimaryKeyWithTemplate
        ⟨SRKHandle⟩ 3 = (.ok true, 4) ∧
      (UnsealFromTPM (scripted { goodScript [7] with load := .error (.plain "transport failure") })
        (UnmarshalFromBytes sampleDecodeError) (sampleKey 1) 0).result
        = .returned [] [] (some (.unclassified (.plain "transport failure"))) ∧
      ∀ msg, (UnsealFromTPM
          (scripted { goodScript [7] with load := .error (.plain "transport failure") })
          (UnmarshalFromBytes sampleDecodeError) (sampleKey 1) 0).result
        ≠ .returned [] [] (some (.InvalidKeyDataError msg))) ∧
    ((scripted { goodScript [7] with
          load := .error (.plain "transport failure"),
          srk := .error (.ResourceUnavailableError SRKHandle "no object at the handle") }).CreateResourceContextFromTPM
        SRKHandle 2 = (.error (.ResourceUnavailableError SRKHandle "no object at the handle"), 3) ∧
      (UnsealFromTPM (scripted { goodScript [7] with
          load := .error (.plain "transport failure"),
          srk := .error (.ResourceUnavailableError SRKHandle "no object at the handle") })
        (UnmarshalFromBytes sampleDecodeError) (sampleKey 1) 0).result
        ≠ .returned [] [] (some .ErrTPMProvisioning)) :=
  ⟨⟨rfl, rfl, rfl, rfl, fun msg h => by cases h⟩, rfl, by decide⟩

/-- The three ways the policy and unseal part can go, with the device answers
that select each. -/
theorem policyAndUnseal_cases {σ : Type} (tpm : Connection σ)
    (unmarshal : List Nat → sealedData × Option Err) (k : SealedKeyObject)
    (keyObject : ResourceContext) (policySession : SessionContext) (s3 : σ) :
    (∃ err s4 e,
        tpm.executePolicySession policySession k.version k.staticPolicyData k.dynamicPolicyData s3
          = (some err, s4) ∧
        (policyAndUnseal tpm unmarshal k keyObject policySession s3).result = fail e ∧
        (policyAndUnseal tpm unmarshal k keyObject policySession s3).trace
          = [Event.executePolicySession policySession k.version false]) ∨
      (∃ s4 err s5 e,
        tpm.executePolicySession policySession k.version k.staticPolicyData k.dynamicPolicyData s3
          = (none, s4) ∧
        tpm.Unseal keyObject policySession s4 = (.error err, s5) ∧
        (policyAndUnseal tpm unmarshal k keyObject policySession s3).result = fail e ∧
        (policyAndUnseal tpm unmarshal k keyObject policySession s3).trace
          = [Event.executePolicySession policySession k.version true,
              Event.Unseal keyObject policySession false]) ∨
      (∃ s4 B s5,
        tpm.executePolicySession policySession k.version k.staticPolicyData k.dynamicPolicyData s3
          = (none, s4) ∧
        tpm.Unseal keyObject policySession s4 = (.ok B, s5) ∧
        (policyAndUnseal tpm unmarshal k keyObject policySession s3).trace
          = [Event.executePolicySession policySession k.version true,
              Event.Unseal keyObject policySession true] ∧
        ((k.version = 0 ∧
            (policyAndUnseal tpm unmarshal k keyObject policySession s3).result
              = .returned B [] none) ∨
          (k.version ≠ 0 ∧ ∃ d e, unmarshal B = (d, some e) ∧
            (policyAndUnseal tpm unmarshal k keyObject policySession s3).result
              = fail (.InvalidKeyDataError e.Error)) ∨
          (k.version ≠ 0 ∧ ∃ d, unmarshal B = (d, none) ∧
            (policyAndUnseal tpm unmarshal k keyObject policySession s3).result
              = .returned d.Key d.AuthPrivateKey none))) := by
  rcases hp : tpm.executePolicySession policySession k.version k.staticPolicyData
    k.dynamicPolicyData s3 with ⟨_ | err, s4⟩
  · right
    rcases hu : tpm.Unseal keyObject policySession s4 with ⟨err | B, s5⟩
    · left
      refine ⟨s4, err, s5, ?_⟩
      by_cases hc : IsTPMSessionError (some err) ErrorPolicyFail CommandUnseal 1 = true <;>
        simp [policyAndUnseal, hp, hu, hc]
    · right
      refine ⟨s4, B, s5, rfl, hu, ?_⟩
      by_cases hv : k.version = 0
      · simp only [policyAndUnseal, hp, hu]
        simp [hv]
      · rcases hd : unmarshal B with ⟨d, _ | e⟩
        · refine ⟨by simp [policyAndUnseal, hp, hu, hv, hd], Or.inr (Or.inr ⟨hv, d, rfl, ?_⟩)⟩
          simp [policyAndUnseal, hp, hu, hv, hd]
        · refine ⟨by simp [policyAndUnseal, hp, hu, hv, hd], Or.inr (Or.inl ⟨hv, d, e, rfl, ?_⟩)⟩
          simp [policyAndUnseal, hp, hu, hv, hd]
  · left
    refine ⟨err, s4, ?_⟩
    simp only [policyAndUnseal, hp]
    split_ifs <;> simp

/-- The six ways a call can go up to the policy and unseal part, with the device
answers that select each. -/
theorem UnsealFromTPM_cases {σ : Type} (tpm : Connection σ)
    (unmarshal : List Nat → sealedData × Option Err) (k : SealedKeyObject) (s : σ) :
    (∃ err s1, tpm.GetCapabilityTPMProperties PropertyPermanent 1 s = (.error err, s1) ∧
        (∃ e, (UnsealFromTPM tpm unmarshal k s).result = fail e) ∧
        (UnsealFromTPM tpm unmarshal k s).trace
          = [Event.GetCapabilityTPMProperties PropertyPermanent 1 false]) ∨
      (∃ s1, tpm.GetCapabilityTPMProperties PropertyPermanent 1 s = (.ok [], s1) ∧
        (UnsealFromTPM tpm unmarshal k s).result = .indexOutOfRange ∧
        (UnsealFromTPM tpm unmarshal k s).trace
          = [Event.GetCapabilityTPMProperties PropertyPermanent 1 true]) ∨
      (∃ p ps s1, tpm.GetCapabilityTPMProperties PropertyPermanent 1 s = (.ok (p :: ps), s1) ∧
        p.Value &&& AttrInLockout > 0 ∧
        (∃ e, (UnsealFromTPM tpm unmarshal k s).result = fail e) ∧
        (UnsealFromTPM tpm unmarshal k s).trace
          = [Event.GetCapabilityTPMProperties PropertyPermanent 1 true]) ∨
      (∃ p ps s1 err s2,
        tpm.GetCapabilityTPMProperties PropertyPermanent 1 s = (.ok (p :: ps), s1) ∧
        p.Value &&& AttrInLockout = 0 ∧
        tpm.load k s1 = (.error err, s2) ∧
        (UnsealFromTPM tpm unmarshal k s).result = (loadFailed tpm err s2).result ∧
        (UnsealFromTPM tpm unmarshal k s).trace
          = Event.GetCapabilityTPMProperties PropertyPermanent 1 true :: Event.load none
            :: (loadFailed tpm err s2).trace) ∨
      (∃ p ps s1 keyObject s2 err s3,
        tpm.GetCapabilityTPMProperties PropertyPermanent 1 s = (.ok (p :: ps), s1) ∧
        p.Value &&& AttrInLockout = 0 ∧
        tpm.load k s1 = (.ok keyObject, s2) ∧
        tpm.StartAuthSession k.keyPublicNameAlg s2 = (.error err, s3) ∧
        (∃ e, (UnsealFromTPM tpm unmarshal k s).result = fail e) ∧
        (UnsealFromTPM tpm unmarshal k s).trace
          = [Event.GetCapabilityTPMProperties PropertyPermanent 1 true,
              Event.load (some keyObject),
              Event.StartAuthSession k.keyPublicNameAlg none,
              Event.FlushContext (.resource keyObject)]) ∨
      (∃ keyObject policySession s3, ReachesPolicy tpm k s keyObject policySession s3 ∧
        (UnsealFromTPM tpm unmarshal k s).result
          = (policyAndUnseal tpm unmarshal k keyObject policySession s3).result ∧
        (UnsealFromTPM tpm unmarshal k s).trace
          = Event.GetCapabilityTPMProperties PropertyPermanent 1 true
            :: Event.load (some keyObject)
            :: Event.StartAuthSession k.keyPublicNameAlg (some policySession)
            :: (policyAndUnseal tpm unmarshal k keyObject policySession s3).trace
            ++ [Event.FlushContext (.session policySession),
                Event.FlushContext (.resource keyObject)]) := by
  rcases hq : tpm.GetCapabilityTPMProperties PropertyPermanent 1 s with ⟨err | props, s1⟩
  · left
    exact ⟨err, s1, rfl, by simp [UnsealFromTPM, hq]⟩
  · rcases props with _ | ⟨p, ps⟩
    · right; left
      exact ⟨s1, rfl, by simp [UnsealFromTPM, hq]⟩
    · by_cases hl : p.Value &&& AttrInLockout > 0
      · right; right; left
        exact ⟨p, ps, s1, rfl, hl, by simp [UnsealFromTPM, hq, hl]⟩
      · have hl0 : p.Value &&& AttrInLockout = 0 := by omega
        rcases hload : tpm.load k s1 with ⟨err | keyObject, s2⟩
        · right; right; right; left
          exact ⟨p, ps, s1, err, s2, rfl, hl0, hload,
            UnsealFromTPM_of_load_error tpm unmarshal k s s1 s2 p ps err hq hl0 hload⟩
        · rcases hsess : tpm.StartAuthSession k.keyPublicNameAlg s2 with ⟨err | policySession, s3⟩
          · right; right; right; right; left
            exact ⟨p, ps, s1, keyObject, s2, err, s3, rfl, hl0, hload, hsess,
              by simp [UnsealFromTPM, withPolicySession, hq, hl0, hload, hsess]⟩
          · right; right; right; right; right
            have hr : ReachesPolicy tpm k s keyObject policySession s3 :=
              ⟨p, ps, s1, s2, hq, hl0, hload, hsess⟩
            exact ⟨keyObject, policySession, s3, hr,
              UnsealFromTPM_of_ReachesPolicy tpm unmarshal k s s3 keyObject policySession hr⟩

/-- C10: if `UnsealFromTPM` returns a non-nil error, the key and the auth key it
returns are both nil, also when the payload of a version 1 object fails to decode
part-way.  If it returns a nil error, every step succeeded, and the key is the bytes
`B` of the unseal command with a nil auth key (version 0), or the key and auth key
are exactly what the decoder stored for `B` without error (any other version). -/
theorem UnsealFromTPM_no_key_with_error {σ : Type} (tpm : Connection σ)
    (unmarshal : List Nat → sealedData × Option Err) (k : SealedKeyObject) (s : σ)
    (key authKey : List Nat) :
    (∀ err, (UnsealFromTPM tpm unmarshal k s).result = .returned key authKey (some err) →
        key = [] ∧ authKey = []) ∧
      ((UnsealFromTPM tpm unmarshal k s).result = .returned key authKey none →
        ∃ keyObject policySession s4 s5 B,
          ReachesUnseal tpm k s keyObject policySession s4 ∧
          tpm.Unseal keyObject policySession s4 = (.ok B, s5) ∧
          (k.version = 0 → key = B ∧ authKey = []) ∧
          (k.version ≠ 0 → unmarshal B = (⟨key, authKey⟩, none))) := by
  rcases UnsealFromTPM_cases tpm unmarshal k s with
    ⟨_, _, _, ⟨e, hres⟩, _⟩ | ⟨_, _, hres, _⟩ | ⟨_, _, _, _, _, ⟨e, hres⟩, _⟩ |
    ⟨_, _, _, err, s2, _, _, _, hres, _⟩ | ⟨_, _, _, _, _, _, _, _, _, _, _, ⟨e, hres⟩, _⟩ |
    ⟨keyObject, policySession, s3, hr, hres, _⟩
  · rw [hres]
    simp only [fail, Result.returned.injEq, reduceCtorEq, and_false, false_implies, and_true]
    rintro err ⟨rfl, rfl, _⟩
    exact ⟨rfl, rfl⟩
  · rw [hres]
    simp
  · rw [hres]
    simp only [fail, Result.returned.injEq, reduceCtorEq, and_false, false_implies, and_true]
    rintro err ⟨rfl, rfl, _⟩
    exact ⟨rfl, rfl⟩
  · obtain ⟨⟨e, he⟩, _⟩ := loadFailed_cases tpm err s2
    rw [hres, he]
    simp only [fail, Result.returned.injEq, reduceCtorEq, and_false, false_implies, and_true]
    rintro err ⟨rfl, rfl, _⟩
    exact ⟨rfl, rfl⟩
  · rw [hres]
    simp only [fail, Result.returned.injEq, reduceCtorEq, and_false, false_implies, and_true]
    rintro err ⟨rfl, rfl, _⟩
    exact ⟨rfl, rfl⟩
  · rw [hres]
    rcases policyAndUnseal_cases tpm unmarshal k keyObject policySession s3 with
      ⟨_, _, e, _, he, _⟩ | ⟨_, _, _, e, _, _, he, _⟩ | ⟨s4, B, s5, hp, hu, _, hv⟩
    · rw [he]
      simp only [fail, Result.returned.injEq, reduceCtorEq, and_false, false_implies, and_true]
      rintro err ⟨rfl, rfl, _⟩
      exact ⟨rfl, rfl⟩
    · rw [he]
      simp only [fail, Result.returned.injEq, reduceCtorEq, and_false, false_implies, and_true]
      rintro err ⟨rfl, rfl, _⟩
      exact ⟨rfl, rfl⟩
    · rcases hv with ⟨hv, he⟩ | ⟨hv, d, e, hd, he⟩ | ⟨hv, d, hd, he⟩
      · rw [he]
        refine ⟨by simp, ?_⟩
        intro h
        simp only [Result.returned.injEq, and_true] at h
        obtain ⟨rfl, rfl⟩ := h
        exact ⟨keyObject, policySession, s4, s5, B, ⟨s3, hr, hp⟩, hu,
          fun _ => ⟨rfl, rfl⟩, fun hne => absurd hv hne⟩
      · rw [he]
        simp only [fail, Result.returned.injEq, reduceCtorEq, and_false, false_implies, and_true]
        rintro err ⟨rfl, rfl, _⟩
        exact ⟨rfl, rfl⟩
      · rw [he]
        refine ⟨by simp, ?_⟩
        intro h
        simp only [Result.returned.injEq, and_true] at h
        obtain ⟨rfl, rfl⟩ := h
        exact ⟨keyObject, policySession, s4, s5, B, ⟨s3, hr, hp⟩, hu,
          fun h0 => absurd h0 hv, fun _ => hd⟩

theorem UnsealFromTPM_no_key_with_error_witness :
    (UnmarshalFromBytes sampleDecodeError [0, 1, 75, 0]).1.Key = [75] ∧
      (UnsealFromTPM (scripted (goodScript [0, 1, 75, 0]))
        (UnmarshalFromBytes sampleDecodeError) (sampleKey 1) 0).result
        = .returned [] [] (some (.InvalidKeyDataError (sampleDecodeError [0, 1, 75, 0]).Error)) ∧
      (([] : List Nat) = [] ∧ ([] : List Nat) = []) :=
  ⟨rfl, rfl,
    (UnsealFromTPM_no_key_with_error (scripted (goodScript [0, 1, 75, 0]))
      (UnmarshalFromBytes sampleDecodeError) (sampleKey 1) 0 [] []).1
      (.InvalidKeyDataError (sampleDecodeError [0, 1, 75, 0]).Error) rfl⟩

/-- The recorded trace of a failed load is what the device itself would log. -/
theorem loadFailed_logged {σ : Type} (tpm : Connection σ) (err : Err) (s : σ)
    (log : List Event) :
    (loadFailed (logged tpm) err (s, log)).result = (loadFailed tpm err s).result ∧
      (loadFailed (logged tpm) err (s, log)).final
        = ((loadFailed tpm err s).final, log ++ (loadFailed tpm err s).trace) := by
  unfold loadFailed
  by_cases hk : isKeyDataError (some err) = true
  · rcases hc : tpm.CreateResourceContextFromTPM SRKHandle s with ⟨err2 | srk, s1⟩
    · by_cases hr : IsResourceUnavailableError (some err2) SRKHandle = true <;>
        simp [logged, hk, hc, hr]
    · rcases ho : tpm.isObjectPrimaryKeyWithTemplate srk s1 with ⟨err2 | ok, s2⟩
      · simp [logged, hk, hc, ho, IsResourceUnavailableError]
      · cases ok <;> simp [logged, hk, hc, ho, IsResourceUnavailableError]
  · by_cases hr : IsResourceUnavailableError (some err) SRKHandle = true <;>
      simp [hk, hr]

/-- The recorded trace of the policy and unseal part is what the device itself
would log. -/
theorem policyAndUnseal_logged {σ : Type} (tpm : Connection σ)
    (unmarshal : List Nat → sealedData × Option Err) (k : SealedKeyObject)
    (keyObject : ResourceContext) (policySession : SessionContext) (s : σ) (log : List Event) :
    (policyAndUnseal (logged tpm) unmarshal k keyObject policySession (s, log)).result
        = (policyAndUnseal tpm unmarshal k keyObject policySession s).result ∧
      (policyAndUnseal (logged tpm) unmarshal k keyObject policySession (s, log)).final
        = ((policyAndUnseal tpm unmarshal k keyObject policySession s).final,
            log ++ (policyAndUnseal tpm unmarshal k keyObject policySession s).trace) := by
  rcases hp : tpm.executePolicySession policySession k.version k.staticPolicyData
    k.dynamicPolicyData s with ⟨_ | err, s4⟩
  · rcases hu : tpm.Unseal keyObject policySession s4 with ⟨err | B, s5⟩
    · by_cases hc : IsTPMSessionError (some err) ErrorPolicyFail CommandUnseal 1 = true <;>
        simp [policyAndUnseal, logged, hp, hu, hc]
    · by_cases hv : k.version = 0
      · simp only [policyAndUnseal, logged, hp, hu]
        simp [hv]
      · rcases hd : unmarshal B with ⟨d, _ | e⟩ <;>
          simp [policyAndUnseal, logged, hp, hu, hv, hd]
  · simp only [policyAndUnseal, logged, hp]
    split_ifs <;> simp

/-- The trace that `UnsealFromTPM` records is the log that the device itself keeps:
run on the logging device, the call returns the same result and leaves in the log
exactly the recorded operations, in the same order. -/
theorem UnsealFromTPM_logged {σ : Type} (tpm : Connection σ)
    (unmarshal : List Nat → sealedData × Option Err) (k : SealedKeyObject) (s : σ)
    (log : List Event) :
    (UnsealFromTPM (logged tpm) unmarshal k (s, log)).result
        = (UnsealFromTPM tpm unmarshal k s).result ∧
      (UnsealFromTPM (logged tpm) unmarshal k (s, log)).final
        = ((UnsealFromTPM tpm unmarshal k s).final,
            log ++ (UnsealFromTPM tpm unmarshal k s).trace) := by
  rcases hq : tpm.GetCapabilityTPMProperties PropertyPermanent 1 s with ⟨err | props, s1⟩
  · simp [UnsealFromTPM, logged, hq]
  · rcases props with _ | ⟨p, ps⟩
    · simp [UnsealFromTPM, logged, hq]
    · by_cases hl : p.Value &&& AttrInLockout > 0
      · simp [UnsealFromTPM, logged, hq, hl]
      · have hl0 : p.Value &&& AttrInLockout = 0 := by omega
        rcases hload : tpm.load k s1 with ⟨err | keyObject, s2⟩
        · have h := loadFailed_logged tpm err s2
            (log ++ [Event.GetCapabilityTPMProperties PropertyPermanent 1 true, Event.load none])
          simp only [UnsealFromTPM, logged, hq, hl0, hload] at h ⊢
          simp [logged, h]
        · rcases hsess : tpm.StartAuthSession k.keyPublicNameAlg s2 with ⟨err | policySession, s3⟩
          · simp [UnsealFromTPM, withPolicySession, logged, hq, hl0, hload, hsess]
          · have h := policyAndUnseal_logged tpm unmarshal k keyObject policySession s3
              (log ++ [Event.GetCapabilityTPMProperties PropertyPermanent 1 true,
                Event.load (some keyObject),
                Event.StartAuthSession k.keyPublicNameAlg (some policySession)])
            simp only [UnsealFromTPM, withPolicySession, logged, hq, hl0, hload, hsess] at h ⊢
            simp [logged, h]

/-- C4: in every call, whatever the device answers, each handle acquired is flushed
on the device before the call returns.  Run on the device that keeps its own log,
the call gives the same result and leaves in the log exactly the recorded
operations; in that log (and so in the recorded trace) the sessions flushed are
exactly the sessions started and the objects flushed are exactly the objects loaded,
so the counts agree; at most one of each is acquired; and the flushes are the last
operations of the call, the session before the loaded object.  On the device state:
after a failed session start the state returned is the one `FlushContext` on the
loaded object leaves, and once the session is started it is the one left by
`FlushContext` on the session followed by `FlushContext` on the loaded object,
applied to the state the policy and unseal part ended in. -/
theorem UnsealFromTPM_flushes_what_it_acquired {σ : Type} (tpm : Connection σ)
    (unmarshal : List Nat → sealedData × Option Err) (k : SealedKeyObject) (s : σ) :
    (∀ log, (UnsealFromTPM (logged tpm) unmarshal k (s, log)).final
        = ((UnsealFromTPM tpm unmarshal k s).final,
            log ++ (UnsealFromTPM tpm unmarshal k s).trace)) ∧
      (∀ log, (UnsealFromTPM (logged tpm) unmarshal k (s, log)).result
        = (UnsealFromTPM tpm unmarshal k s).result) ∧
      (sessionsFlushed (UnsealFromTPM (logged tpm) unmarshal k (s, [])).final.2).length
        = (sessionsStarted (UnsealFromTPM (logged tpm) unmarshal k (s, [])).final.2).length ∧
      (objectsFlushed (UnsealFromTPM (logged tpm) unmarshal k (s, [])).final.2).length
        = (objectsLoaded (UnsealFromTPM (logged tpm) unmarshal k (s, [])).final.2).length ∧
      sessionsFlushed (UnsealFromTPM (logged tpm) unmarshal k (s, [])).final.2
        = sessionsStarted (UnsealFromTPM (logged tpm) unmarshal k (s, [])).final.2 ∧
      objectsFlushed (UnsealFromTPM (logged tpm) unmarshal k (s, [])).final.2
        = objectsLoaded (UnsealFromTPM (logged tpm) unmarshal k (s, [])).final.2 ∧
      (UnsealFromTPM (logged tpm) unmarshal k (s, [])).final.2
        = (UnsealFromTPM (logged tpm) unmarshal k (s, [])).final.2.filter (fun e => !e.isFlush)
          ++ (sessionsStarted (UnsealFromTPM (logged tpm) unmarshal k (s, [])).final.2).map
              (fun c => Event.FlushContext (.session c))
          ++ (objectsLoaded (UnsealFromTPM (logged tpm) unmarshal k (s, [])).final.2).map
              (fun c => Event.FlushContext (.resource c)) ∧
      (∀ p ps s1 keyObject s2 err s3,
        tpm.GetCapabilityTPMProperties PropertyPermanent 1 s = (.ok (p :: ps), s1) →
        p.Value &&& AttrInLockout = 0 →
        tpm.load k s1 = (.ok keyObject, s2) →
        tpm.StartAuthSession k.keyPublicNameAlg s2 = (.error err, s3) →
        (UnsealFromTPM tpm unmarshal k s).final
          = (tpm.FlushContext (.resource keyObject) s3).2) ∧
      (∀ keyObject policySession s3,
        ReachesPolicy tpm k s keyObject policySession s3 →
        (UnsealFromTPM tpm unmarshal k s).final
          = (tpm.FlushContext (.resource keyObject)
              (tpm.FlushContext (.session policySession)
                (policyAndUnseal tpm unmarshal k keyObject policySession s3).final).2).2) ∧
      (sessionsFlushed (UnsealFromTPM tpm unmarshal k s).trace).length
        = (sessionsStarted (UnsealFromTPM tpm unmarshal k s).trace).length ∧
      (objectsFlushed (UnsealFromTPM tpm unmarshal k s).trace).length
        = (objectsLoaded (UnsealFromTPM tpm unmarshal k s).trace).length ∧
      sessionsFlushed (UnsealFromTPM tpm unmarshal k s).trace
        = sessionsStarted (UnsealFromTPM tpm unmarshal k s).trace ∧
      objectsFlushed (UnsealFromTPM tpm unmarshal k s).trace
        = objectsLoaded (UnsealFromTPM tpm unmarshal k s).trace ∧
      (sessionsStarted (UnsealFromTPM tpm unmarshal k s).trace).length ≤ 1 ∧
      (objectsLoaded (UnsealFromTPM tpm unmarshal k s).trace).length ≤ 1 ∧
      (UnsealFromTPM tpm unmarshal k s).trace
        = (UnsealFromTPM tpm unmarshal k s).trace.filter (fun e => !e.isFlush)
          ++ (sessionsStarted (UnsealFromTPM tpm unmarshal k s).trace).map
              (fun c => Event.FlushContext (.session c))
          ++ (objectsLoaded (UnsealFromTPM tpm unmarshal k s).trace).map
              (fun c => Event.FlushContext (.resource c)) := by
  have htrace : (sessionsFlushed (UnsealFromTPM tpm unmarshal k s).trace).length
        = (sessionsStarted (UnsealFromTPM tpm unmarshal k s).trace).length ∧
      (objectsFlushed (UnsealFromTPM tpm unmarshal k s).trace).length
        = (objectsLoaded (UnsealFromTPM tpm unmarshal k s).trace).length ∧
      sessionsFlushed (UnsealFromTPM tpm unmarshal k s).trace
        = sessionsStarted (UnsealFromTPM tpm unmarshal k s).trace ∧
      objectsFlushed (UnsealFromTPM tpm unmarshal k s).trace
        = objectsLoaded (UnsealFromTPM tpm unmarshal k s).trace ∧
      (sessionsStarted (UnsealFromTPM tpm unmarshal k s).trace).length ≤ 1 ∧
      (objectsLoaded (UnsealFromTPM tpm unmarshal k s).trace).length ≤ 1 ∧
      (UnsealFromTPM tpm unmarshal k s).trace
        = (UnsealFromTPM tpm unmarshal k s).trace.filter (fun e => !e.isFlush)
          ++ (sessionsStarted (UnsealFromTPM tpm unmarshal k s).trace).map
              (fun c => Event.FlushContext (.session c))
          ++ (objectsLoaded (UnsealFromTPM tpm unmarshal k s).trace).map
              (fun c => Event.FlushContext (.resource c)) := by
    rcases UnsealFromTPM_cases tpm unmarshal k s with
      ⟨_, _, _, _, htr⟩ | ⟨_, _, _, htr⟩ | ⟨_, _, _, _, _, _, htr⟩ |
      ⟨_, _, _, err, s2, _, _, _, _, htr⟩ | ⟨_, _, _, _, _, _, _, _, _, _, _, _, htr⟩ |
      ⟨keyObject, policySession, s3, _, _, htr⟩
    · rw [htr]
      simp [sessionsFlushed, sessionsStarted, objectsFlushed, objectsLoaded, Event.isFlush]
    · rw [htr]
      simp [sessionsFlushed, sessionsStarted, objectsFlushed, objectsLoaded, Event.isFlush]
    · rw [htr]
      simp [sessionsFlushed, sessionsStarted, objectsFlushed, objectsLoaded, Event.isFlush]
    · rcases (loadFailed_cases tpm err s2).2 with h | ⟨b, h⟩ | ⟨srk, b, h⟩ <;>
        (rw [htr, h]
         simp [sessionsFlushed, sessionsStarted, objectsFlushed, objectsLoaded, Event.isFlush])
    · rw [htr]
      simp [sessionsFlushed, sessionsStarted, objectsFlushed, objectsLoaded, Event.isFlush]
    · rcases policyAndUnseal_cases tpm unmarshal k keyObject policySession s3 with
        ⟨_, _, _, _, _, h⟩ | ⟨_, _, _, _, _, _, _, h⟩ | ⟨_, _, _, _, _, h, _⟩ <;>
        (rw [htr, h]
         simp [sessionsFlushed, sessionsStarted, objectsFlushed, objectsLoaded, Event.isFlush])
  have hlog : (UnsealFromTPM (logged tpm) unmarshal k (s, [])).final.2
      = (UnsealFromTPM tpm unmarshal k s).trace := by
    rw [(UnsealFromTPM_logged tpm unmarshal k s []).2]
    simp
  obtain ⟨t1, t2, t3, t4, t5, t6, t7⟩ := htrace
  refine ⟨fun log => (UnsealFromTPM_logged tpm unmarshal k s log).2,
    fun log => (UnsealFromTPM_logged tpm unmarshal k s log).1,
    ?_, ?_, ?_, ?_, ?_, ?_, ?_, t1, t2, t3, t4, t5, t6, t7⟩
  · rw [hlog]; exact t1
  · rw [hlog]; exact t2
  · rw [hlog]; exact t3
  · rw [hlog]; exact t4
  · rw [hlog]; exact t7
  · intro p ps s1 keyObject s2 err s3 hq hl hload hsess
    simp [UnsealFromTPM, withPolicySession, hq, hl, hload, hsess]
  · rintro keyObject policySession s3 ⟨p, ps, s1, s2, hq, hl, hload, hsess⟩
    simp [UnsealFromTPM, withPolicySession, hq, hl, hload, hsess]

theorem UnsealFromTPM_flushes_what_it_acquired_witness :
    (UnsealFromTPM (scripted (goodScript [75])) (UnmarshalFromBytes sampleDecodeError)
        (sampleKey 0) 0).final
      = ((scripted (goodScript [75])).FlushContext (.resource ⟨0x80000000⟩)
          ((scripted (goodScript [75])).FlushContext (.session ⟨0x03000000⟩)
            (policyAndUnseal (scripted (goodScript [75])) (UnmarshalFromBytes sampleDecodeError)
              (sampleKey 0) ⟨0x80000000⟩ ⟨0x03000000⟩ 3).final).2).2 :=
  (UnsealFromTPM_flushes_what_it_acquired (scripted (goodScript [75]))
    (UnmarshalFromBytes sampleDecodeError) (sampleKey 0) 0).2.2.2.2.2.2.2.2.1
    ⟨0x80000000⟩ ⟨0x03000000⟩ 3 ⟨_, _, 1, 2, rfl, by decide, rfl, rfl⟩

/-- C9: in every call, whatever the device answers: the unseal command is issued
at most once; if it is issued, then the properties query succeeded with the lockout
bit clear, the load succeeded, the policy session was started with the name
algorithm of the sealed object and `executePolicySession` returned no error, in
this order, and the operations of the call are exactly these, the unseal command
and the two flushes; and a step that fails is the last step to issue anything:
after a failed query, an empty property list or a set lockout bit nothing is
issued, after a failed load no session is started and nothing is flushed, after a
failed session start only the loaded object is flushed, after failed policy
assertions only the two flushes follow. -/
theorem UnsealFromTPM_step_order {σ : Type} (tpm : Connection σ)
    (unmarshal : List Nat → sealedData × Option Err) (k : SealedKeyObject) (s : σ) :
    (UnsealFromTPM tpm unmarshal k s).trace.countP Event.isUnseal ≤ 1 ∧
      (∀ e ∈ (UnsealFromTPM tpm unmarshal k s).trace, e.isUnseal = true →
        ∃ keyObject policySession s4 ok,
          ReachesUnseal tpm k s keyObject policySession s4 ∧
          (UnsealFromTPM tpm unmarshal k s).trace
            = [Event.GetCapabilityTPMProperties PropertyPermanent 1 true,
                Event.load (some keyObject),
                Event.StartAuthSession k.keyPublicNameAlg (some policySession),
                Event.executePolicySession policySession k.version true,
                Event.Unseal keyObject policySession ok,
                Event.FlushContext (.session policySession),
                Event.FlushContext (.resource keyObject)]) ∧
      (∀ err s1, tpm.GetCapabilityTPMProperties PropertyPermanent 1 s = (.error err, s1) →
        (UnsealFromTPM tpm unmarshal k s).trace
          = [Event.GetCapabilityTPMProperties PropertyPermanent 1 false]) ∧
      (∀ s1, tpm.GetCapabilityTPMProperties PropertyPermanent 1 s = (.ok [], s1) →
        (UnsealFromTPM tpm unmarshal k s).trace
          = [Event.GetCapabilityTPMProperties PropertyPermanent 1 true]) ∧
      (∀ p ps s1, tpm.GetCapabilityTPMProperties PropertyPermanent 1 s = (.ok (p :: ps), s1) →
        p.Value &&& AttrInLockout > 0 →
        (UnsealFromTPM tpm unmarshal k s).trace
          = [Event.GetCapabilityTPMProperties PropertyPermanent 1 true]) ∧
      (∀ p ps s1 err s2,
        tpm.GetCapabilityTPMProperties PropertyPermanent 1 s = (.ok (p :: ps), s1) →
        p.Value &&& AttrInLockout = 0 →
        tpm.load k s1 = (.error err, s2) →
        ∀ e ∈ (UnsealFromTPM tpm unmarshal k s).trace,
          e.afterLoad = false ∧ e.isFlush = false) ∧
      (∀ p ps s1 keyObject s2 err s3,
        tpm.GetCapabilityTPMProperties PropertyPermanent 1 s = (.ok (p :: ps), s1) →
        p.Value &&& AttrInLockout = 0 →
        tpm.load k s1 = (.ok keyObject, s2) →
        tpm.StartAuthSession k.keyPublicNameAlg s2 = (.error err, s3) →
        (UnsealFromTPM tpm unmarshal k s).trace
          = [Event.GetCapabilityTPMProperties PropertyPermanent 1 true,
              Event.load (some keyObject),
              Event.StartAuthSession k.keyPublicNameAlg none,
              Event.FlushContext (.resource keyObject)]) ∧
      (∀ keyObject policySession s3 err s4,
        ReachesPolicy tpm k s keyObject policySession s3 →
        tpm.executePolicySession policySession k.version k.staticPolicyData
          k.dynamicPolicyData s3 = (some err, s4) →
        (UnsealFromTPM tpm unmarshal k s).trace
          = [Event.GetCapabilityTPMProperties PropertyPermanent 1 true,
              Event.load (some keyObject),
              Event.StartAuthSession k.keyPublicNameAlg (some policySession),
              Event.executePolicySession policySession k.version false,
              Event.FlushContext (.session policySession),
              Event.FlushContext (.resource keyObject)]) := by
  refine ⟨?_, ?_, ?_, ?_, ?_, ?_, ?_, ?_⟩
  · rcases UnsealFromTPM_cases tpm unmarshal k s with
      ⟨_, _, _, _, htr⟩ | ⟨_, _, _, htr⟩ | ⟨_, _, _, _, _, _, htr⟩ |
      ⟨_, _, _, err, s2, _, _, _, _, htr⟩ | ⟨_, _, _, _, _, _, _, _, _, _, _, _, htr⟩ |
      ⟨keyObject, policySession, s3, _, _, htr⟩
    · rw [htr]; simp [Event.isUnseal]
    · rw [htr]; simp [Event.isUnseal]
    · rw [htr]; simp [Event.isUnseal]
    · rcases (loadFailed_cases tpm err s2).2 with h | ⟨b, h⟩ | ⟨srk, b, h⟩ <;>
        (rw [htr, h]; simp [Event.isUnseal, List.countP_cons])
    · rw [htr]; simp [Event.isUnseal, List.countP_cons]
    · rcases policyAndUnseal_cases tpm unmarshal k keyObject policySession s3 with
        ⟨_, _, _, _, _, h⟩ | ⟨_, _, _, _, _, _, _, h⟩ | ⟨_, _, _, _, _, h, _⟩ <;>
        (rw [htr, h]; simp [Event.isUnseal, List.countP_cons])
  · rcases UnsealFromTPM_cases tpm unmarshal k s with
      ⟨_, _, _, _, htr⟩ | ⟨_, _, _, htr⟩ | ⟨_, _, _, _, _, _, htr⟩ |
      ⟨_, _, _, err, s2, _, _, _, _, htr⟩ | ⟨_, _, _, _, _, _, _, _, _, _, _, _, htr⟩ |
      ⟨keyObject, policySession, s3, hr, _, htr⟩
    · rw [htr]; simp [Event.isUnseal]
    · rw [htr]; simp [Event.isUnseal]
    · rw [htr]; simp [Event.isUnseal]
    · rcases (loadFailed_cases tpm err s2).2 with h | ⟨b, h⟩ | ⟨srk, b, h⟩ <;>
        (rw [htr, h]; simp [Event.isUnseal])
    · rw [htr]; simp [Event.isUnseal]
    · rcases policyAndUnseal_cases tpm unmarshal k keyObject policySession s3 with
        ⟨_, _, _, _, _, h⟩ | ⟨s4, _, _, _, hp, _, _, h⟩ | ⟨s4, _, _, hp, _, h, _⟩
      · rw [htr, h]; simp [Event.isUnseal]
      · intro e _ _
        exact ⟨keyObject, policySession, s4, false, ⟨s3, hr, hp⟩, by rw [htr, h]; rfl⟩
      · intro e _ _
        exact ⟨keyObject, policySession, s4, true, ⟨s3, hr, hp⟩, by rw [htr, h]; rfl⟩
  · intro err s1 hq
    simp [UnsealFromTPM, hq]
  · intro s1 hq
    simp [UnsealFromTPM, hq]
  · intro p ps s1 hq hl
    simp [UnsealFromTPM, hq, hl]
  · intro p ps s1 err s2 hq hl hload
    rw [(UnsealFromTPM_of_load_error tpm unmarshal k s s1 s2 p ps err hq hl hload).2]
    rcases (loadFailed_cases tpm err s2).2 with h | ⟨b, h⟩ | ⟨srk, b, h⟩ <;>
      (rw [h]; simp [Event.afterLoad, Event.isFlush])
  · intro p ps s1 keyObject s2 err s3 hq hl hload hsess
    simp [UnsealFromTPM, withPolicySession, hq, hl, hload, hsess]
  · intro keyObject policySession s3 err s4 hr hp
    rw [(UnsealFromTPM_of_ReachesPolicy tpm unmarshal k s s3 keyObject policySession hr).2]
    simp only [policyAndUnseal, hp]
    split_ifs <;> simp

theorem UnsealFromTPM_step_order_witness :
    ∃ keyObject policySession s4 ok,
      ReachesUnseal (scripted (goodScript [75])) (sampleKey 0) 0 keyObject policySession s4 ∧
      (UnsealFromTPM (scripted (goodScript [75])) (UnmarshalFromBytes sampleDecodeError)
          (sampleKey 0) 0).trace
        = [Event.GetCapabilityTPMProperties PropertyPermanent 1 true,
            Event.load (some keyObject),
            Event.StartAuthSession (sampleKey 0).keyPublicNameAlg (some policySession),
            Event.executePolicySession policySession (sampleKey 0).version true,
            Event.Unseal keyObject policySession ok,
            Event.FlushContext (.session policySession),
            Event.FlushContext (.resource keyObject)] :=
  (UnsealFromTPM_step_order (scripted (goodScript [75]))
    (UnmarshalFromBytes sampleDecodeError) (sampleKey 0) 0).2.1
    (Event.Unseal ⟨0x80000000⟩ ⟨0x03000000⟩ true) (by decide) rfl

set_option maxRecDepth 100000 in
/-- C8: the subject of each of the two Microsoft UEFI CA identities is the DER
encoding of the distinguished name in the comment above it, every attribute a
PrintableString in an RDN of its own, and the subject and the issuer of both are
each one DER SEQUENCE whose length octets give the number of octets after them. -/
theorem MSUefiCA_names_are_DER :
    MSUefiCA2011.Subject = derName subject2011 ∧
      MSUefiCA2023.Subject = derName subject2023 ∧
      isDerSequence MSUefiCA2011.Subject = true ∧
      isDerSequence MSUefiCA2011.Issuer = true ∧
      isDerSequence MSUefiCA2023.Subject = true ∧
      isDerSequence MSUefiCA2023.Issuer = true := by
  refine ⟨?_, ?_, ?_, ?_, ?_, ?_⟩ <;> decide

end Secboot
